import Mathlib

/-!
A shallow embedding of `htmresearch/frameworks/classification/network_factory.py`
(the classification-network factory of the htmresearch repository), together
with proofs about its assembly and learning-toggle procedures.

The embedding models the Python module's own control flow exactly; the external
NuPIC framework objects (Network, regions, MultiEncoder, RecordStream) are
modelled by explicit records: a region exposes its construction parameters as
attributes, a MultiEncoder built from an encoder dictionary reports a width
derived from that dictionary, and the data source is a pair of abstract
field-bound query functions.  Each network-level side effect (region creation,
linking, configuration mutation, parameter setting) is recorded as an event in
a trace, so that temporal statements ("before any stage is created") are
statements about trace order.
-/

namespace NetFactory

/-- Python-style string-keyed dictionary, modelled as an association list in
which the first binding for a key is the visible one. -/
abbrev Dict (α : Type) : Type := List (String × α)

/-- Dictionary lookup: the first binding for the key, if any.  Models both
Python `d[k]` (caller handles the `none` case as a KeyError) and `d.get(k)`. -/
def Dict.get? {α : Type} (d : Dict α) (k : String) : Option α :=
  match d with
  | [] => none
  | (k1, v) :: rest => if k1 = k then some v else Dict.get? rest k

/-- Dictionary update `d[k] = v`: replace the first binding for the key, or
append a fresh binding. -/
def Dict.set {α : Type} (d : Dict α) (k : String) (v : α) : Dict α :=
  match d with
  | [] => [(k, v)]
  | (k1, v1) :: rest =>
    if k1 = k then (k, v) :: rest else (k1, v1) :: Dict.set rest k v

/-- The Python exceptions the module can raise while assembling a network. -/
inductive PyErr where
  | keyError (key : String)
  | attributeError (attr : String)
  | typeError (msg : String)
  | valueError (msg : String)
deriving DecidableEq

/-- A value stored in an encoder-parameter dictionary (numbers and strings are
the kinds the module reads or writes: fieldname, n, w, minval, maxval). -/
inductive EncVal where
  | int (n : Int)
  | str (s : String)
deriving DecidableEq

/-- Parameter dictionary of a single named encoder. -/
abbrev EncParams : Type := Dict EncVal

/-- The encoder map of the sensor configuration: encoder name to parameters. -/
abbrev EncoderDict : Type := Dict EncParams

/-- Width of one encoder, as the external encoder library derives it from the
parameters (its output bit count `n`; 0 places no claim on other kinds). -/
def encParamsWidth (p : EncParams) : Int :=
  match Dict.get? p "n" with
  | some (EncVal.int n) => n
  | _ => 0

/-- Width of a MultiEncoder: the union of the component encoders' bit ranges. -/
def multiEncoderWidth (d : EncoderDict) : Int :=
  (d.map (fun kv => encParamsWidth kv.2)).sum

/-- An encoder object: either a MultiEncoder the factory built from an encoder
dictionary, or an externally constructed encoder instance (identified by an id,
so that "that exact encoder instance" is expressible). -/
inductive EncoderObj where
  | multi (d : EncoderDict)
  | external (id : Nat) (width : Int)
deriving DecidableEq

/-- The `getWidth()` method of an encoder object. -/
def EncoderObj.getWidth : EncoderObj → Int
  | EncoderObj.multi d => multiEncoderWidth d
  | EncoderObj.external _ w => w

/-- The value found under the `"encoders"` key of the sensor configuration:
either a mapping, or some non-mapping value (a string, list, number, ...) of
which only the truthiness is relevant; such non-mapping values expose neither
a `get` method nor a `getWidth` method. -/
inductive EncodersVal where
  | dict (d : EncoderDict)
  | nonDict (truthy : Bool)
deriving DecidableEq

/-- Python truthiness of the `"encoders"` value (an empty dict is falsy). -/
def EncodersVal.truthy : EncodersVal → Bool
  | EncodersVal.dict d => !d.isEmpty
  | EncodersVal.nonDict t => t

/-- The value assigned to the sensor region's `encoder` attribute. -/
inductive SensorEncoderAttr where
  | obj (e : EncoderObj)
  | raw (truthy : Bool)
  | pyNone
deriving DecidableEq

/-- The `.getWidth()` call on whatever was assigned as the sensor's encoder;
non-encoder values and None have no such attribute. -/
def sensorAttrWidth : SensorEncoderAttr → Except PyErr Int
  | SensorEncoderAttr.obj e => Except.ok e.getWidth
  | SensorEncoderAttr.raw _ => Except.error (PyErr.attributeError "getWidth")
  | SensorEncoderAttr.pyNone => Except.error (PyErr.attributeError "getWidth")

/-- Configuration of the sensor region.  `encoders` and `regionEnabled` are
`Option`s because the corresponding dictionary keys may be absent. -/
structure SensorConfig where
  regionName : String
  regionType : String
  regionParams : Dict Int
  encoders : Option EncodersVal
  regionEnabled : Option Bool
deriving DecidableEq

/-- Configuration of an SP, TM, TP or classifier region. -/
structure RegionConfig where
  regionName : String
  regionType : String
  regionParams : Dict Int
  regionEnabled : Option Bool
deriving DecidableEq

/-- The network configuration dictionary: each fixed stage key is `none` when
absent from the dictionary. -/
structure NetworkConfig where
  sensorRegionConfig : Option SensorConfig
  spRegionConfig : Option RegionConfig
  tmRegionConfig : Option RegionConfig
  tpRegionConfig : Option RegionConfig
  classifierRegionConfig : Option RegionConfig
deriving DecidableEq

/-- The data source (RecordStream): per-field observed minimum and maximum.
The queried field name is whatever `.get("fieldname")` produced. -/
structure DataSource where
  getFieldMin : Option EncVal → Int
  getFieldMax : Option EncVal → Int

/-- A region instance, as observable through this module: the external region
classes expose their construction parameters as attributes (`inputWidth`,
`columnCount`, `cellsPerColumn`; the temporal pooler stores `inputWidth` in
`_inputWidth`), and carry runtime Boolean parameters set via `setParameter`. -/
structure Region where
  name : String
  rtype : String
  creationParams : Dict Int
  boolParams : Dict Bool
  encoderAttr : Option SensorEncoderAttr
  hasDataSource : Bool
deriving DecidableEq

/-- Attribute read backed by a construction parameter of the region. -/
def Region.attr (r : Region) (a : String) : Except PyErr Int :=
  match Dict.get? r.creationParams a with
  | some v => Except.ok v
  | none => Except.error (PyErr.attributeError a)

/-- Set a runtime Boolean parameter on a region record. -/
def Region.setB (r : Region) (p : String) (v : Bool) : Region :=
  { r with boolParams := Dict.set r.boolParams p v }

/-- Observable side effects of assembly, in chronological order. -/
inductive Event where
  | created (regionName : String)
  | linked (src dst srcOutput destInput : String)
  | configWrite (regionKey paramName : String)
  | paramSet (regionName paramName : String) (value : Bool)
deriving DecidableEq

/-- State threaded through assembly: the (mutable, aliased) configuration
dictionary, the regions added to the network so far, and the event trace. -/
structure BuildSt where
  config : NetworkConfig
  regions : List Region
  trace : List Event
deriving DecidableEq

instance {ε α : Type} [DecidableEq ε] [DecidableEq α] :
    DecidableEq (Except ε α) := fun a b =>
  match a, b with
  | Except.ok x, Except.ok y =>
    if h : x = y then isTrue (by rw [h]) else isFalse (by simp [h])
  | Except.error x, Except.error y =>
    if h : x = y then isTrue (by rw [h]) else isFalse (by simp [h])
  | Except.ok _, Except.error _ => isFalse (by simp)
  | Except.error _, Except.ok _ => isFalse (by simp)

/-- Outcome of an assembly step: the state is kept on errors too, so that
what had been created before an exception stays observable. -/
inductive Res (α : Type) where
  | ok (st : BuildSt) (val : α)
  | err (st : BuildSt) (e : PyErr)
deriving DecidableEq

/-- The state carried by an outcome. -/
def Res.state {α : Type} : Res α → BuildSt
  | Res.ok st _ => st
  | Res.err st _ => st

/-- Whether the outcome is a success. -/
def Res.isOk {α : Type} : Res α → Bool
  | Res.ok _ _ => true
  | Res.err _ _ => false

/-- The exception carried by a failing outcome. -/
def Res.errOf {α : Type} : Res α → Option PyErr
  | Res.ok _ _ => none
  | Res.err _ e => some e

/-- Mirrors `_createEncoder`: reject non-mapping input with a TypeError,
otherwise build a MultiEncoder from the mapping. -/
def createEncoder (encoders : EncodersVal) : Except PyErr EncoderObj :=
  match encoders with
  | EncodersVal.dict d => Except.ok (EncoderObj.multi d)
  | EncodersVal.nonDict _ =>
    Except.error (PyErr.typeError "Encoders specified in incorrect format.")

/-- The message `_validateRegionWidths` formats into its ValueError. -/
def widthMismatchMsg (prevWidth curWidth : Int) : String :=
  "Region widths do not fit. Output width = " ++ toString prevWidth ++
    ", input width = " ++ toString curWidth ++ "."

/-- Mirrors `_validateRegionWidths`. -/
def validateRegionWidths (prevWidth curWidth : Int) : Except PyErr Unit :=
  if prevWidth ≠ curWidth then
    Except.error (PyErr.valueError (widthMismatchMsg prevWidth curWidth))
  else Except.ok ()

/-- The region record `_createRegion` produces: created from the (serialized)
region parameters, then learning forced off and inference forced on. -/
def regionFromConfig (rc : RegionConfig) : Region :=
  (({ name := rc.regionName, rtype := rc.regionType,
      creationParams := rc.regionParams, boolParams := [],
      encoderAttr := none, hasDataSource := false } : Region).setB
    "learningMode" false).setB "inferenceMode" true

/-- Trace events of `_createRegion` for a region of the given name. -/
def createRegionEvents (n : String) : List Event :=
  [Event.created n, Event.paramSet n "learningMode" false,
   Event.paramSet n "inferenceMode" true]

/-- Trace events of `_linkRegions`: the primary link from the previous region
plus the sensor's reset and sequence-id side channels. -/
def linkEvents (sensorName prevName curName : String) : List Event :=
  [Event.linked prevName curName "" "",
   Event.linked sensorName curName "resetOut" "resetIn",
   Event.linked sensorName curName "sequenceIdOut" "sequenceIdIn"]

/-- The value assigned to `sensorRegion.encoder` in `_createSensorRegion`:
a truthy mapping goes through `_createEncoder`, a truthy non-mapping is
assigned as-is, and a falsy value falls back to the `encoder` argument
(possibly None). -/
def sensorEncoderAssignment (encodersVal : EncodersVal)
    (encoder : Option EncoderObj) : Except PyErr SensorEncoderAttr :=
  if encodersVal.truthy then
    match encodersVal with
    | EncodersVal.dict d =>
      (createEncoder (EncodersVal.dict d)).map SensorEncoderAttr.obj
    | EncodersVal.nonDict t => Except.ok (SensorEncoderAttr.raw t)
  else
    match encoder with
    | some e => Except.ok (SensorEncoderAttr.obj e)
    | none => Except.ok SensorEncoderAttr.pyNone

/-- Mirrors `_createSensorRegion` (the data source is bound to the region;
only its presence is recorded).  The region is added to the network before
the encoder attribute is assigned. -/
def buildSensor (encoder : Option EncoderObj) (st : BuildSt) :
    Res (String × SensorEncoderAttr) :=
  match st.config.sensorRegionConfig with
  | none => Res.err st (PyErr.keyError "sensorRegionConfig")
  | some sc =>
    match sc.encoders with
    | none => Res.err st (PyErr.keyError "encoders")
    | some encodersVal =>
      let r0 : Region :=
        { name := sc.regionName, rtype := sc.regionType,
          creationParams := sc.regionParams, boolParams := [],
          encoderAttr := none, hasDataSource := false }
      match sensorEncoderAssignment encodersVal encoder with
      | Except.error e =>
        Res.err
          { st with
            regions := st.regions ++ [r0],
            trace := st.trace ++ [Event.created sc.regionName] } e
      | Except.ok attr =>
        let r1 := { r0 with encoderAttr := some attr, hasDataSource := true }
        Res.ok
          { st with
            regions := st.regions ++ [r1],
            trace := st.trace ++ [Event.created sc.regionName] }
          (sc.regionName, attr)

/-- The keys present in the network configuration dictionary, each paired with
its stage config's `regionEnabled` entry.  A fixed canonical key order stands
in for the source dictionary's iteration order, which only affects which of
several missing keys is reported first. -/
def configKeys (cfg : NetworkConfig) : List (String × Option Bool) :=
  (match cfg.sensorRegionConfig with
   | some c => [("sensorRegionConfig", c.regionEnabled)]
   | none => []) ++
  (match cfg.spRegionConfig with
   | some c => [("spRegionConfig", c.regionEnabled)]
   | none => []) ++
  (match cfg.tmRegionConfig with
   | some c => [("tmRegionConfig", c.regionEnabled)]
   | none => []) ++
  (match cfg.tpRegionConfig with
   | some c => [("tpRegionConfig", c.regionEnabled)]
   | none => []) ++
  (match cfg.classifierRegionConfig with
   | some c => [("classifierRegionConfig", c.regionEnabled)]
   | none => [])

/-- Mirrors the `networkRegions` comprehension: keep every key whose stage
config has a truthy `regionEnabled`; a stage config without that key raises
KeyError. -/
def collectEnabled : List (String × Option Bool) → Except PyErr (List String)
  | [] => Except.ok []
  | (_, none) :: _ => Except.error (PyErr.keyError "regionEnabled")
  | (k, some b) :: rest =>
    match collectEnabled rest with
    | Except.error e => Except.error e
    | Except.ok l => Except.ok (if b then k :: l else l)

/-- The SP block of `createNetwork`: inject `inputWidth` (the sensor encoder's
width) into the SP parameters, create the region, validate against the
previous width, link, and return the new previous name and width (the SP's
`columnCount`). -/
def buildSP (sensorName prevRegion : String) (prevWidth sensorWidth : Int)
    (st : BuildSt) : Res (String × Int) :=
  match st.config.spRegionConfig with
  | none => Res.err st (PyErr.keyError "spRegionConfig")
  | some rc =>
    let rc1 :=
      { rc with regionParams := Dict.set rc.regionParams "inputWidth" sensorWidth }
    let st1 : BuildSt :=
      { st with
        config := { st.config with spRegionConfig := some rc1 },
        trace := st.trace ++ [Event.configWrite "spRegionConfig" "inputWidth"] }
    let sp := regionFromConfig rc1
    let st2 : BuildSt :=
      { st1 with
        regions := st1.regions ++ [sp],
        trace := st1.trace ++ createRegionEvents rc1.regionName }
    match Region.attr sp "inputWidth" with
    | Except.error e => Res.err st2 e
    | Except.ok iw =>
      match validateRegionWidths prevWidth iw with
      | Except.error e => Res.err st2 e
      | Except.ok _ =>
        let st3 :=
          { st2 with trace := st2.trace ++ linkEvents sensorName prevRegion rc1.regionName }
        match Region.attr sp "columnCount" with
        | Except.error e => Res.err st3 e
        | Except.ok cc => Res.ok st3 (rc1.regionName, cc)

/-- The TM block of `createNetwork`: inject `inputWidth = columnCount`, create
the region, enable predicted-active-cell tracking and anomaly mode, validate
the previous width against the TM's `columnCount`, link, and return the new
previous width `columnCount * cellsPerColumn`. -/
def buildTM (sensorName prevRegion : String) (prevWidth : Int)
    (st : BuildSt) : Res (String × Int) :=
  match st.config.tmRegionConfig with
  | none => Res.err st (PyErr.keyError "tmRegionConfig")
  | some rc =>
    match Dict.get? rc.regionParams "columnCount" with
    | none => Res.err st (PyErr.keyError "columnCount")
    | some cc0 =>
      let rc1 :=
        { rc with regionParams := Dict.set rc.regionParams "inputWidth" cc0 }
      let st1 : BuildSt :=
        { st with
          config := { st.config with tmRegionConfig := some rc1 },
          trace := st.trace ++ [Event.configWrite "tmRegionConfig" "inputWidth"] }
      let tm := ((regionFromConfig rc1).setB
        "computePredictedActiveCellIndices" true).setB "anomalyMode" true
      let st2 : BuildSt :=
        { st1 with
          regions := st1.regions ++ [tm],
          trace := st1.trace ++ createRegionEvents rc1.regionName ++
            [Event.paramSet rc1.regionName "computePredictedActiveCellIndices" true,
             Event.paramSet rc1.regionName "anomalyMode" true] }
      match Region.attr tm "columnCount" with
      | Except.error e => Res.err st2 e
      | Except.ok cc =>
        match validateRegionWidths prevWidth cc with
        | Except.error e => Res.err st2 e
        | Except.ok _ =>
          let st3 :=
            { st2 with trace := st2.trace ++ linkEvents sensorName prevRegion rc1.regionName }
          match Region.attr tm "columnCount", Region.attr tm "cellsPerColumn" with
          | Except.ok c2, Except.ok cpc => Res.ok st3 (rc1.regionName, c2 * cpc)
          | Except.error e, _ => Res.err st3 e
          | _, Except.error e => Res.err st3 e

/-- The TP block of `createNetwork`: inject `inputWidth` (the previous width),
create the region, validate against its `_inputWidth` attribute, link, and
return the new previous name (the previous width is not updated). -/
def buildTP (sensorName prevRegion : String) (prevWidth : Int)
    (st : BuildSt) : Res String :=
  match st.config.tpRegionConfig with
  | none => Res.err st (PyErr.keyError "tpRegionConfig")
  | some rc =>
    let rc1 :=
      { rc with regionParams := Dict.set rc.regionParams "inputWidth" prevWidth }
    let st1 : BuildSt :=
      { st with
        config := { st.config with tpRegionConfig := some rc1 },
        trace := st.trace ++ [Event.configWrite "tpRegionConfig" "inputWidth"] }
    let tp := regionFromConfig rc1
    let st2 : BuildSt :=
      { st1 with
        regions := st1.regions ++ [tp],
        trace := st1.trace ++ createRegionEvents rc1.regionName }
    match Region.attr tp "inputWidth" with
    | Except.error e => Res.err st2 e
    | Except.ok iw =>
      match validateRegionWidths prevWidth iw with
      | Except.error e => Res.err st2 e
      | Except.ok _ =>
        Res.ok
          { st2 with trace := st2.trace ++ linkEvents sensorName prevRegion rc1.regionName }
          rc1.regionName

/-- The classifier block of `createNetwork`: create the region, link it to the
previous region's primary output and to the sensor's category channel, and add
the sequence-id to partition link exactly when the classifier's input spec
exposes a `partitionIn` port (`hasPartitionIn` models the capability-spec
introspection, keyed on the region type). -/
def buildClassifier (hasPartitionIn : String → Bool) (sensorName prevRegion : String)
    (st : BuildSt) : Res Unit :=
  match st.config.classifierRegionConfig with
  | none => Res.err st (PyErr.keyError "classifierRegionConfig")
  | some rc =>
    let clf := regionFromConfig rc
    let st2 : BuildSt :=
      { st with
        regions := st.regions ++ [clf],
        trace := st.trace ++ createRegionEvents rc.regionName }
    let st3 : BuildSt :=
      { st2 with
        trace := st2.trace ++
          [Event.linked prevRegion rc.regionName "" "",
           Event.linked sensorName rc.regionName "categoryOut" "categoryIn"] }
    if hasPartitionIn rc.regionType then
      Res.ok
        { st3 with
          trace := st3.trace ++
            [Event.linked sensorName rc.regionName "sequenceIdOut" "partitionIn"] } ()
    else Res.ok st3 ()

/-- Mirrors `createNetwork`, starting from a given build state (so that the
pre-construction trace of `createAndConfigureNetwork` can be carried in). -/
def createNetworkFrom (encoder : Option EncoderObj)
    (hasPartitionIn : String → Bool) (st0 : BuildSt) : Res Unit :=
  match buildSensor encoder st0 with
  | Res.err st e => Res.err st e
  | Res.ok st1 (sensorName, attr) =>
    match sensorAttrWidth attr with
    | Except.error e => Res.err st1 e
    | Except.ok w0 =>
      match collectEnabled (configKeys st1.config) with
      | Except.error e => Res.err st1 e
      | Except.ok networkRegions =>
        match (if "spRegionConfig" ∈ networkRegions then
                 buildSP sensorName sensorName w0 w0 st1
               else Res.ok st1 (sensorName, w0)) with
        | Res.err st e => Res.err st e
        | Res.ok st2 (prev1, w1) =>
          match (if "tmRegionConfig" ∈ networkRegions then
                   buildTM sensorName prev1 w1 st2
                 else Res.ok st2 (prev1, w1)) with
          | Res.err st e => Res.err st e
          | Res.ok st3 (prev2, w2) =>
            match (if "tpRegionConfig" ∈ networkRegions then
                     buildTP sensorName prev2 w2 st3
                   else Res.ok st3 prev2) with
            | Res.err st e => Res.err st e
            | Res.ok st4 prev3 =>
              buildClassifier hasPartitionIn sensorName prev3 st4

/-- Mirrors `createNetwork` on a fresh network and untouched trace. -/
def createNetwork (cfg : NetworkConfig) (encoder : Option EncoderObj)
    (hasPartitionIn : String → Bool) : Res Unit :=
  createNetworkFrom encoder hasPartitionIn { config := cfg, regions := [], trace := [] }

/-- Mirrors `_getEncoderParam`: chained indexing into the sensor encoder map,
then a `.get` on the named encoder's parameter dictionary. -/
def getEncoderParam (cfg : NetworkConfig) (encoderName paramName : String) :
    Except PyErr (Option EncVal) :=
  match cfg.sensorRegionConfig with
  | none => Except.error (PyErr.keyError "sensorRegionConfig")
  | some sc =>
    match sc.encoders with
    | none => Except.error (PyErr.keyError "encoders")
    | some (EncodersVal.nonDict _) =>
      Except.error (PyErr.typeError "value is not subscriptable by string keys")
    | some (EncodersVal.dict d) =>
      match Dict.get? d encoderName with
      | none => Except.error (PyErr.keyError encoderName)
      | some ps => Except.ok (Dict.get? ps paramName)

/-- Mirrors `_setScalarEncoderMinMax`: query the data source for the bound
field's observed minimum and maximum, and overwrite the scalar encoder's
`minval` and `maxval` entries with them (two configuration writes). -/
def setScalarEncoderMinMax (cfg : NetworkConfig) (ds : DataSource) :
    Except PyErr (NetworkConfig × List Event) :=
  match getEncoderParam cfg "scalarEncoder" "fieldname" with
  | Except.error e => Except.error e
  | Except.ok fieldName =>
    let minval := ds.getFieldMin fieldName
    let maxval := ds.getFieldMax fieldName
    match cfg.sensorRegionConfig with
    | none => Except.error (PyErr.keyError "sensorRegionConfig")
    | some sc =>
      match sc.encoders with
      | none => Except.error (PyErr.keyError "encoders")
      | some (EncodersVal.nonDict _) =>
        Except.error (PyErr.typeError "value is not subscriptable by string keys")
      | some (EncodersVal.dict d) =>
        match Dict.get? d "scalarEncoder" with
        | none => Except.error (PyErr.keyError "scalarEncoder")
        | some ps =>
          let ps1 := Dict.set (Dict.set ps "minval" (EncVal.int minval))
            "maxval" (EncVal.int maxval)
          let d1 := Dict.set d "scalarEncoder" ps1
          let sc1 := { sc with encoders := some (EncodersVal.dict d1) }
          Except.ok
            ({ cfg with sensorRegionConfig := some sc1 },
             [Event.configWrite "sensorRegionConfig" "minval",
              Event.configWrite "sensorRegionConfig" "maxval"])

/-- Mirrors `createAndConfigureNetwork`: fetch the encoder dictionary with
`.get`, reject the all-falsy case with a ValueError, call `.get` on the
encoder-dictionary value (an AttributeError when that value is None or
another non-mapping), inject scalar bounds when a non-empty scalar encoder
config is present, then build the network.  The final framework init
call is internal to the external framework and has no observable effect
here. -/
def createAndConfigureNetwork (ds : DataSource) (cfg : NetworkConfig)
    (encoder : Option EncoderObj) (hasPartitionIn : String → Bool) : Res Unit :=
  let st0 : BuildSt := { config := cfg, regions := [], trace := [] }
  match cfg.sensorRegionConfig with
  | none => Res.err st0 (PyErr.keyError "sensorRegionConfig")
  | some sc =>
    let encoderDict := sc.encoders
    let edTruthy :=
      match encoderDict with
      | none => false
      | some v => v.truthy
    if !edTruthy && !encoder.isSome then
      Res.err st0 (PyErr.valueError "No encoder specified; cannot create sensor region.")
    else
      match encoderDict with
      | none => Res.err st0 (PyErr.attributeError "get")
      | some (EncodersVal.nonDict _) => Res.err st0 (PyErr.attributeError "get")
      | some (EncodersVal.dict d) =>
        let scalarEnc := Dict.get? d "scalarEncoder"
        let seTruthy :=
          match scalarEnc with
          | some ps => !ps.isEmpty
          | none => false
        if seTruthy then
          match setScalarEncoderMinMax cfg ds with
          | Except.error e => Res.err st0 e
          | Except.ok (cfg1, evs) =>
            createNetworkFrom encoder hasPartitionIn
              { config := cfg1, regions := [], trace := evs }
        else
          createNetworkFrom encoder hasPartitionIn st0

/-- A constructed network, as `setRegionLearning` sees it: its regions. -/
abbrev Net : Type := List Region

/-- Lookup of `network.regions[name]`; the name is `none` when the Python
expression produced `None`. -/
def regionsLookup (net : Net) (name : Option String) : Except PyErr Region :=
  match name with
  | none => Except.error (PyErr.keyError "None")
  | some n =>
    match net.find? (fun r => r.name == n) with
    | some r => Except.ok r
    | none => Except.error (PyErr.keyError n)

/-- Mutate the named region's runtime parameter inside the network. -/
def netSetParam (net : Net) (name param : String) (v : Bool) : Net :=
  net.map (fun r => if r.name == name then r.setB param v else r)

/-- One optional-stage block of `setRegionLearning`: index the stage key (a
KeyError when absent), and when its `regionEnabled` entry is truthy, look the
region up and set its learning mode; a falsy or absent entry yields the None
placeholder. -/
def learnStep (net : Net) (rc : Option RegionConfig) (key : String) (mode : Bool) :
    Except PyErr (Net × List Event × Option Region) :=
  match rc with
  | none => Except.error (PyErr.keyError key)
  | some c =>
    if c.regionEnabled.getD false then
      match regionsLookup net (some c.regionName) with
      | Except.error e => Except.error e
      | Except.ok r =>
        Except.ok (netSetParam net c.regionName "learningMode" mode,
          [Event.paramSet c.regionName "learningMode" mode],
          some (r.setB "learningMode" mode))
    else Except.ok (net, [], none)

/-- Mirrors `setRegionLearning`: look up the sensor handle, run the SP, TM and
TP blocks, then unconditionally set the classifier's learning mode, returning
the updated network, the parameter-set events, and the tuple of handles. -/
def setRegionLearning (net : Net) (cfg : NetworkConfig) (learningMode : Bool) :
    Except PyErr (Net × List Event ×
      (Region × Option Region × Option Region × Option Region × Region)) :=
  match cfg.sensorRegionConfig with
  | none => Except.error (PyErr.keyError "sensorRegionConfig")
  | some sc =>
    match regionsLookup net (some sc.regionName) with
    | Except.error e => Except.error e
    | Except.ok sensorRegion =>
      match learnStep net cfg.spRegionConfig "spRegionConfig" learningMode with
      | Except.error e => Except.error e
      | Except.ok (net1, evs1, spH) =>
        match learnStep net1 cfg.tmRegionConfig "tmRegionConfig" learningMode with
        | Except.error e => Except.error e
        | Except.ok (net2, evs2, tmH) =>
          match learnStep net2 cfg.tpRegionConfig "tpRegionConfig" learningMode with
          | Except.error e => Except.error e
          | Except.ok (net3, evs3, tpH) =>
            match cfg.classifierRegionConfig with
            | none => Except.error (PyErr.keyError "classifierRegionConfig")
            | some cc =>
              match regionsLookup net3 (some cc.regionName) with
              | Except.error e => Except.error e
              | Except.ok clf =>
                Except.ok (netSetParam net3 cc.regionName "learningMode" learningMode,
                  evs1 ++ evs2 ++ evs3 ++
                    [Event.paramSet cc.regionName "learningMode" learningMode],
                  (sensorRegion, spH, tmH, tpH,
                   clf.setB "learningMode" learningMode))

/-! Concrete fixtures used by witnesses and counterexamples. -/

/-- A scalar encoder parameter dictionary of width 4. -/
def scalarParamsX : EncParams :=
  [("fieldname", EncVal.str "value"), ("n", EncVal.int 4), ("w", EncVal.int 2),
   ("minval", EncVal.int 0), ("maxval", EncVal.int 100)]

/-- The sensor encoder map of `sensorCfgX`. -/
def encodersDictX : EncoderDict := [("scalarEncoder", scalarParamsX)]

/-- A sensor stage config with a scalar encoder. -/
def sensorCfgX : SensorConfig :=
  { regionName := "sensor", regionType := "py.RecordSensor", regionParams := [],
    encoders := some (EncodersVal.dict encodersDictX),
    regionEnabled := some true }

/-- An SP stage config whose column count matches the sensor width. -/
def spCfgX : RegionConfig :=
  { regionName := "SP", regionType := "py.SPRegion",
    regionParams := [("columnCount", 4)], regionEnabled := some true }

/-- A TM stage config whose column count matches the SP column count. -/
def tmCfgX : RegionConfig :=
  { regionName := "TM", regionType := "py.TMRegion",
    regionParams := [("columnCount", 4), ("cellsPerColumn", 8)],
    regionEnabled := some true }

/-- A TP stage config. -/
def tpCfgX : RegionConfig :=
  { regionName := "TP", regionType := "py.TemporalPoolerRegion",
    regionParams := [], regionEnabled := some true }

/-- A classifier stage config. -/
def clfCfgX : RegionConfig :=
  { regionName := "classifier", regionType := "py.SDRClassifierRegion",
    regionParams := [], regionEnabled := some true }

/-- A fully enabled, width-consistent network configuration. -/
def cfgX : NetworkConfig :=
  { sensorRegionConfig := some sensorCfgX, spRegionConfig := some spCfgX,
    tmRegionConfig := some tmCfgX, tpRegionConfig := some tpCfgX,
    classifierRegionConfig := some clfCfgX }

/-- A data source whose bound field has observed bounds 3 and 97. -/
def dsX : DataSource := { getFieldMin := fun _ => 3, getFieldMax := fun _ => 97 }

/-- An SP config that declares an input width (7) different from the sensor
encoder's width (4). -/
def spDeclared7 : RegionConfig :=
  { regionName := "SP", regionType := "py.SPRegion",
    regionParams := [("inputWidth", 7), ("columnCount", 4)],
    regionEnabled := some true }

/-- Variant of `cfgX` with the SP stage declaring a mismatched input width. -/
def cfg1cex : NetworkConfig := { cfgX with spRegionConfig := some spDeclared7 }

/-- A TM config with column count 5 (mismatching `cfgX`'s sensor width 4). -/
def tmCfg5 : RegionConfig :=
  { tmCfgX with regionParams := [("columnCount", 5), ("cellsPerColumn", 8)] }

/-- Variant of `cfgX` with SP disabled and a TM column count (5) that differs from the
sensor encoder's width (4). -/
def cfg1tm : NetworkConfig :=
  { cfgX with
    spRegionConfig := some { spCfgX with regionEnabled := some false },
    tmRegionConfig := some tmCfg5 }

/-- Variant of `cfgX` with the sensor's `"encoders"` key absent. -/
def cfg6absent : NetworkConfig :=
  { cfgX with sensorRegionConfig := some { sensorCfgX with encoders := none } }

/-- Variant of `cfgX` with the sensor's `"encoders"` key bound to an empty mapping. -/
def cfg6empty : NetworkConfig :=
  let sc := { sensorCfgX with encoders := some (EncodersVal.dict []) }
  { cfgX with sensorRegionConfig := some sc }

/-- Variant of `cfgX` with the sensor's `"encoders"` key bound to a truthy non-mapping. -/
def cfg7 : NetworkConfig :=
  let sc := { sensorCfgX with encoders := some (EncodersVal.nonDict true) }
  { cfgX with sensorRegionConfig := some sc }

/-- Variant of `cfgX` with the classifier config's `regionEnabled` key absent. -/
def cfg9clf : NetworkConfig :=
  { cfgX with classifierRegionConfig := some { clfCfgX with regionEnabled := none } }

/-- Variant of `cfgX` with the sensor config's `regionEnabled` key absent. -/
def cfg9sensor : NetworkConfig :=
  { cfgX with sensorRegionConfig := some { sensorCfgX with regionEnabled := none } }

/-- The encoder attribute of the first region added to the network. -/
def sensorEncoderOf (r : Res Unit) : Option SensorEncoderAttr :=
  match r.state.regions.head? with
  | some reg => reg.encoderAttr
  | none => none

/-- Whether an event is a link into `dst` at input port `destInput`. -/
def isLinkInto (dst destInput : String) : Event → Bool
  | Event.linked _ d _ di => d == dst && di == destInput
  | _ => false

/-- Whether an event is a configuration write. -/
def Event.isConfigWrite : Event → Bool
  | Event.configWrite _ _ => true
  | _ => false

/-- Whether some configuration write occurs after the first region creation. -/
def writesAfterCreation : List Event → Bool
  | [] => false
  | Event.created _ :: rest => rest.any Event.isConfigWrite
  | _ :: rest => writesAfterCreation rest

/-- The sensor region record built from `sensorCfgX`. -/
def sensorRegionW : Region :=
  { name := "sensor", rtype := "py.RecordSensor", creationParams := [],
    boolParams := [],
    encoderAttr := some (SensorEncoderAttr.obj (EncoderObj.multi encodersDictX)),
    hasDataSource := true }

/-- The build state after the sensor stage of `cfg1tm` is created. -/
def st1W : BuildSt :=
  { config := cfg1tm, regions := [sensorRegionW],
    trace := [Event.created "sensor"] }

/-- The build state after the sensor stage of `cfgX` is created. -/
def st1X : BuildSt :=
  { config := cfgX, regions := [sensorRegionW],
    trace := [Event.created "sensor"] }

/-- The build state after the SP stage of `cfgX`. -/
def st2X : BuildSt := (buildSP "sensor" "sensor" 4 4 st1X).state

/-- The build state after the TM stage of `cfgX`. -/
def st3X : BuildSt := (buildTM "sensor" "SP" 4 st2X).state

/-- The build state after the TP stage of `cfgX`. -/
def st4X : BuildSt := (buildTP "sensor" "TM" 32 st3X).state

/-- The build state after the classifier stage of `cfgX`. -/
def st5X : BuildSt := (buildClassifier (fun _ => false) "sensor" "TP" st4X).state

/-- The final build state of a full `createNetwork` run on `cfgX`. -/
def stFX : BuildSt := (createNetwork cfgX none (fun _ => false)).state

/-- Variant of `cfgX` with the TM stage disabled (SP and TP stay enabled). -/
def cfgC5 : NetworkConfig :=
  { cfgX with tmRegionConfig := some { tmCfgX with regionEnabled := some false } }

/-- The final build state of a full `createNetwork` run on `cfgC5`. -/
def stF5 : BuildSt := (createNetwork cfgC5 none (fun _ => false)).state

/-- The build state after the sensor stage of `cfg9clf` is created. -/
def st1W9 : BuildSt :=
  { config := cfg9clf, regions := [sensorRegionW],
    trace := [Event.created "sensor"] }

/-- Variant of `cfgX` with the classifier flag present but false. -/
def cfgClfOff : NetworkConfig :=
  let clc := { clfCfgX with regionEnabled := some false }
  { cfgX with classifierRegionConfig := some clc }

/-- The final build state of a full `createNetwork` run on `cfgClfOff`. -/
def stF9 : BuildSt := (createNetwork cfgClfOff none (fun _ => false)).state

/-- A network holding only the sensor region. -/
def netW : Net := [sensorRegionW]

/-- A placeholder region record. -/
def emptyRegion : Region :=
  { name := "", rtype := "", creationParams := [], boolParams := [],
    encoderAttr := none, hasDataSource := false }

instance : DecidableEq (Option Region × Region) := instDecidableEqProd

instance : DecidableEq (Option Region × Option Region × Region) :=
  instDecidableEqProd

instance : DecidableEq (Option Region × Option Region × Option Region × Region) :=
  instDecidableEqProd

instance :
    DecidableEq (Region × Option Region × Option Region × Option Region × Region) :=
  instDecidableEqProd

instance : DecidableEq (List Event ×
    (Region × Option Region × Option Region × Option Region × Region)) :=
  instDecidableEqProd

instance : DecidableEq (Net × List Event ×
    (Region × Option Region × Option Region × Option Region × Region)) :=
  instDecidableEqProd

/-- The successful output of `setRegionLearning` on the network assembled
from `cfgX`, with learning switched on. -/
def lrOut : Net × List Event ×
    (Region × Option Region × Option Region × Option Region × Region) :=
  match setRegionLearning stFX.regions cfgX true with
  | Except.ok t => t
  | Except.error _ => ([], [], (emptyRegion, none, none, none, emptyRegion))

/-- An SP config whose enabled flag is false. -/
def spOff : RegionConfig := { spCfgX with regionEnabled := some false }

/-- A TM config whose enabled flag is false. -/
def tmOff : RegionConfig := { tmCfgX with regionEnabled := some false }

/-- Variant of `cfgX` without the SP key. -/
def cfgM1 : NetworkConfig := { cfgX with spRegionConfig := none }

/-- Variant of `cfgX` with SP present but disabled, and the TM key missing. -/
def cfgM2 : NetworkConfig :=
  { cfgX with spRegionConfig := some spOff, tmRegionConfig := none }

/-- Variant of `cfgX` with SP and TM present but disabled, and the TP key missing. -/
def cfgM3 : NetworkConfig :=
  { cfgX with
    spRegionConfig := some spOff,
    tmRegionConfig := some tmOff,
    tpRegionConfig := none }

example : (createNetwork cfgX none (fun _ => false)).isOk = true := by decide

example : (createAndConfigureNetwork dsX cfgX none (fun _ => false)).isOk = true := by
  decide

/-! Dictionary lemmas. -/

theorem Dict.get?_set {α : Type} (d : Dict α) (k k1 : String) (v : α) :
    Dict.get? (Dict.set d k v) k1 = if k = k1 then some v else Dict.get? d k1 := by
  induction d with
  | nil => simp [Dict.set, Dict.get?]
  | cons hd tl ih =>
    obtain ⟨k2, v2⟩ := hd
    by_cases h2 : k2 = k
    · subst h2
      by_cases h1 : k2 = k1 <;> simp [Dict.set, Dict.get?, h1]
    · by_cases h1 : k2 = k1
      · subst h1
        have hk : ¬ k = k2 := fun hx => h2 hx.symm
        simp [Dict.set, Dict.get?, h2, hk]
      · simp [Dict.set, Dict.get?, h2, h1, ih]

theorem Dict.get?_set_self {α : Type} (d : Dict α) (k : String) (v : α) :
    Dict.get? (Dict.set d k v) k = some v := by
  simp [Dict.get?_set]

theorem Dict.get?_set_ne {α : Type} (d : Dict α) {k k1 : String} (v : α)
    (h : k ≠ k1) : Dict.get? (Dict.set d k v) k1 = Dict.get? d k1 := by
  simp [Dict.get?_set, h]

/-! Facts about the enabled-stage comprehension. -/

theorem collectEnabled_err_of_none {l : List (String × Option Bool)} {k : String}
    (h : (k, (none : Option Bool)) ∈ l) :
    collectEnabled l = Except.error (PyErr.keyError "regionEnabled") := by
  induction l with
  | nil => cases h
  | cons hd tl ih =>
    obtain ⟨k2, ob⟩ := hd
    cases ob with
    | none => simp [collectEnabled]
    | some b =>
      have htl : (k, (none : Option Bool)) ∈ tl := by
        rcases List.mem_cons.mp h with heq | hm
        · cases heq
        · exact hm
      simp [collectEnabled, ih htl]

/-- The list the enabled-stage comprehension produces for given flags. -/
def enabledKeys (b1 b2 b3 b4 b5 : Bool) : List String :=
  (if b1 then ["sensorRegionConfig"] else []) ++
  (if b2 then ["spRegionConfig"] else []) ++
  (if b3 then ["tmRegionConfig"] else []) ++
  (if b4 then ["tpRegionConfig"] else []) ++
  (if b5 then ["classifierRegionConfig"] else [])

theorem collectEnabled_eq {cfg : NetworkConfig}
    {sc : SensorConfig} {spc tmc tpc cc : RegionConfig}
    {b1 b2 b3 b4 b5 : Bool}
    (h1 : cfg.sensorRegionConfig = some sc) (e1 : sc.regionEnabled = some b1)
    (h2 : cfg.spRegionConfig = some spc) (e2 : spc.regionEnabled = some b2)
    (h3 : cfg.tmRegionConfig = some tmc) (e3 : tmc.regionEnabled = some b3)
    (h4 : cfg.tpRegionConfig = some tpc) (e4 : tpc.regionEnabled = some b4)
    (h5 : cfg.classifierRegionConfig = some cc) (e5 : cc.regionEnabled = some b5) :
    collectEnabled (configKeys cfg) = Except.ok (enabledKeys b1 b2 b3 b4 b5) := by
  simp [configKeys, h1, h2, h3, h4, h5, e1, e2, e3, e4, e5, collectEnabled]
  cases b1 <;> cases b2 <;> cases b3 <;> cases b4 <;> cases b5 <;> rfl

theorem mem_enabledKeys_sp (b1 b2 b3 b4 b5 : Bool) :
    "spRegionConfig" ∈ enabledKeys b1 b2 b3 b4 b5 ↔ b2 = true := by
  cases b1 <;> cases b2 <;> cases b3 <;> cases b4 <;> cases b5 <;> decide

theorem mem_enabledKeys_tm (b1 b2 b3 b4 b5 : Bool) :
    "tmRegionConfig" ∈ enabledKeys b1 b2 b3 b4 b5 ↔ b3 = true := by
  cases b1 <;> cases b2 <;> cases b3 <;> cases b4 <;> cases b5 <;> decide

theorem mem_enabledKeys_tp (b1 b2 b3 b4 b5 : Bool) :
    "tpRegionConfig" ∈ enabledKeys b1 b2 b3 b4 b5 ↔ b4 = true := by
  cases b1 <;> cases b2 <;> cases b3 <;> cases b4 <;> cases b5 <;> decide

/-! Inversion lemmas for the assembly steps: what a successful step implies
about the configuration, and how it transformed the build state. -/

theorem buildSensor_ok_elim {encoder : Option EncoderObj} {st st2 : BuildSt}
    {n : String} {attr : SensorEncoderAttr}
    (h : buildSensor encoder st = Res.ok st2 (n, attr)) :
    ∃ sc ev, st.config.sensorRegionConfig = some sc ∧
      sc.encoders = some ev ∧
      n = sc.regionName ∧
      sensorEncoderAssignment ev encoder = Except.ok attr ∧
      st2.config = st.config ∧
      st2.regions = st.regions ++
        [{ name := sc.regionName, rtype := sc.regionType,
           creationParams := sc.regionParams, boolParams := [],
           encoderAttr := some attr, hasDataSource := true }] ∧
      st2.trace = st.trace ++ [Event.created sc.regionName] := by
  unfold buildSensor at h
  cases hsc : st.config.sensorRegionConfig with
  | none => rw [hsc] at h; cases h
  | some sc =>
    rw [hsc] at h
    cases hev : sc.encoders with
    | none => simp [hev] at h
    | some ev =>
      simp only [hev] at h
      cases hassign : sensorEncoderAssignment ev encoder with
      | error e => simp [hassign] at h
      | ok a =>
        simp only [hassign] at h
        cases h
        exact ⟨sc, ev, rfl, hev, rfl, hassign, rfl, rfl, rfl⟩

theorem buildSP_ok_elim {s p : String} {pw sw : Int} {st st2 : BuildSt}
    {n : String} {w : Int}
    (h : buildSP s p pw sw st = Res.ok st2 (n, w)) :
    ∃ rc, st.config.spRegionConfig = some rc ∧
      n = rc.regionName ∧
      Dict.get? rc.regionParams "columnCount" = some w ∧
      pw = sw ∧
      st2.config =
        { st.config with
          spRegionConfig :=
            some { rc with
                   regionParams := Dict.set rc.regionParams "inputWidth" sw } } ∧
      st2.regions = st.regions ++
        [regionFromConfig
          { rc with regionParams := Dict.set rc.regionParams "inputWidth" sw }] ∧
      st2.trace = st.trace ++ [Event.configWrite "spRegionConfig" "inputWidth"] ++
        createRegionEvents rc.regionName ++ linkEvents s p rc.regionName := by
  unfold buildSP at h
  cases hrc : st.config.spRegionConfig with
  | none => rw [hrc] at h; cases h
  | some rc =>
    rw [hrc] at h
    simp only [Region.attr, regionFromConfig, Region.setB, Dict.get?_set_self,
      validateRegionWidths] at h
    by_cases hpw : pw = sw
    · simp only [hpw, ne_eq, not_true_eq_false, if_neg, ite_false,
        not_false_eq_true] at h
      have hcol : Dict.get? (Dict.set rc.regionParams "inputWidth" sw) "columnCount"
          = Dict.get? rc.regionParams "columnCount" :=
        Dict.get?_set_ne _ _ (by decide)
      rw [hcol] at h
      cases hcc : Dict.get? rc.regionParams "columnCount" with
      | none => rw [hcc] at h; cases h
      | some cc =>
        rw [hcc] at h
        cases h
        refine ⟨rc, rfl, rfl, hcc, hpw, rfl, ?_, rfl⟩
        simp [regionFromConfig, Region.setB]
    · simp [hpw] at h

theorem buildTM_ok_elim {s p : String} {pw : Int} {st st2 : BuildSt}
    {n : String} {w : Int}
    (h : buildTM s p pw st = Res.ok st2 (n, w)) :
    ∃ rc cc cpc, st.config.tmRegionConfig = some rc ∧
      n = rc.regionName ∧
      Dict.get? rc.regionParams "columnCount" = some cc ∧
      Dict.get? rc.regionParams "cellsPerColumn" = some cpc ∧
      pw = cc ∧ w = cc * cpc ∧
      st2.config =
        { st.config with
          tmRegionConfig :=
            some { rc with
                   regionParams := Dict.set rc.regionParams "inputWidth" cc } } ∧
      st2.regions = st.regions ++
        [((regionFromConfig
            { rc with regionParams := Dict.set rc.regionParams "inputWidth" cc }).setB
          "computePredictedActiveCellIndices" true).setB "anomalyMode" true] ∧
      st2.trace = st.trace ++ [Event.configWrite "tmRegionConfig" "inputWidth"] ++
        createRegionEvents rc.regionName ++
        [Event.paramSet rc.regionName "computePredictedActiveCellIndices" true,
         Event.paramSet rc.regionName "anomalyMode" true] ++
        linkEvents s p rc.regionName := by
  unfold buildTM at h
  cases hrc : st.config.tmRegionConfig with
  | none => rw [hrc] at h; cases h
  | some rc =>
    rw [hrc] at h
    simp only [Region.attr, regionFromConfig, Region.setB] at h
    cases hcc : Dict.get? rc.regionParams "columnCount" with
    | none => rw [hcc] at h; simp at h
    | some cc0 =>
      rw [hcc] at h
      have hcol : Dict.get? (Dict.set rc.regionParams "inputWidth" cc0) "columnCount"
          = Dict.get? rc.regionParams "columnCount" :=
        Dict.get?_set_ne _ _ (by decide)
      have hcpc : Dict.get? (Dict.set rc.regionParams "inputWidth" cc0) "cellsPerColumn"
          = Dict.get? rc.regionParams "cellsPerColumn" :=
        Dict.get?_set_ne _ _ (by decide)
      simp only [Region.attr, regionFromConfig, Region.setB, hcol, hcc,
        validateRegionWidths] at h
      by_cases hpw : pw = cc0
      · simp only [hpw, ne_eq, not_true_eq_false, ite_false, if_neg,
          not_false_eq_true, hcpc] at h
        cases hc2 : Dict.get? rc.regionParams "cellsPerColumn" with
        | none => rw [hc2] at h; simp at h
        | some cpc =>
          rw [hc2] at h
          simp only at h
          cases h
          refine ⟨rc, cc0, cpc, rfl, rfl, hcc, hc2, hpw, rfl, rfl, ?_, ?_⟩
          · simp [regionFromConfig, Region.setB]
          · simp [createRegionEvents, linkEvents]
      · simp [hpw] at h

theorem buildTP_ok_elim {s p : String} {pw : Int} {st st2 : BuildSt} {n : String}
    (h : buildTP s p pw st = Res.ok st2 n) :
    ∃ rc, st.config.tpRegionConfig = some rc ∧
      n = rc.regionName ∧
      st2.config =
        { st.config with
          tpRegionConfig :=
            some { rc with
                   regionParams := Dict.set rc.regionParams "inputWidth" pw } } ∧
      st2.regions = st.regions ++
        [regionFromConfig
          { rc with regionParams := Dict.set rc.regionParams "inputWidth" pw }] ∧
      st2.trace = st.trace ++ [Event.configWrite "tpRegionConfig" "inputWidth"] ++
        createRegionEvents rc.regionName ++ linkEvents s p rc.regionName := by
  unfold buildTP at h
  cases hrc : st.config.tpRegionConfig with
  | none => rw [hrc] at h; cases h
  | some rc =>
    rw [hrc] at h
    simp only [Region.attr, regionFromConfig, Region.setB, Dict.get?_set_self,
      validateRegionWidths] at h
    simp only [ne_eq, not_true_eq_false, ite_false, if_neg, not_false_eq_true] at h
    cases h
    refine ⟨rc, rfl, rfl, rfl, ?_, rfl⟩
    simp [regionFromConfig, Region.setB]

theorem buildClassifier_ok_elim {f : String → Bool} {s p : String}
    {st st2 : BuildSt}
    (h : buildClassifier f s p st = Res.ok st2 ()) :
    ∃ rc, st.config.classifierRegionConfig = some rc ∧
      st2.config = st.config ∧
      st2.regions = st.regions ++ [regionFromConfig rc] ∧
      st2.trace = st.trace ++ createRegionEvents rc.regionName ++
        [Event.linked p rc.regionName "" "",
         Event.linked s rc.regionName "categoryOut" "categoryIn"] ++
        (if f rc.regionType then
          [Event.linked s rc.regionName "sequenceIdOut" "partitionIn"] else []) := by
  unfold buildClassifier at h
  cases hrc : st.config.classifierRegionConfig with
  | none => rw [hrc] at h; cases h
  | some rc =>
    rw [hrc] at h
    by_cases hf : f rc.regionType
    · simp only [hf, if_true, ite_true] at h
      cases h
      exact ⟨rc, rfl, rfl, rfl, by simp [hf]⟩
    · simp only [hf, if_false, ite_false] at h
      cases h
      exact ⟨rc, rfl, rfl, rfl, by simp [hf]⟩

/-! Preservation lemmas: the assembly steps never modify the sensor stage's
configuration entry (only the SP, TM and TP entries receive writes). -/

theorem buildSensor_state_config (encoder : Option EncoderObj) (st : BuildSt) :
    (buildSensor encoder st).state.config = st.config := by
  unfold buildSensor
  cases hsc : st.config.sensorRegionConfig with
  | none => simp [hsc, Res.state]
  | some sc =>
    cases hev : sc.encoders with
    | none => simp [hsc, hev, Res.state]
    | some ev =>
      cases hassign : sensorEncoderAssignment ev encoder with
      | error e => simp [hsc, hev, hassign, Res.state]
      | ok a => simp [hsc, hev, hassign, Res.state]

theorem buildSP_state_sensorCfg (s p : String) (pw sw : Int) (st : BuildSt) :
    (buildSP s p pw sw st).state.config.sensorRegionConfig =
      st.config.sensorRegionConfig := by
  unfold buildSP
  cases hrc : st.config.spRegionConfig with
  | none => simp [hrc, Res.state]
  | some rc =>
    simp only [hrc, Region.attr, regionFromConfig, Region.setB,
      Dict.get?_set_self, validateRegionWidths]
    by_cases hpw : pw = sw
    · simp only [hpw, ne_eq, not_true_eq_false, ite_false, if_neg,
        not_false_eq_true]
      cases hcc : Dict.get? (Dict.set rc.regionParams "inputWidth" sw)
          "columnCount" with
      | none => simp [hcc, Res.state]
      | some cc => simp [hcc, Res.state]
    · simp [hpw, Res.state]

theorem buildTM_state_sensorCfg (s p : String) (pw : Int) (st : BuildSt) :
    (buildTM s p pw st).state.config.sensorRegionConfig =
      st.config.sensorRegionConfig := by
  unfold buildTM
  cases hrc : st.config.tmRegionConfig with
  | none => simp [hrc, Res.state]
  | some rc =>
    cases hcc : Dict.get? rc.regionParams "columnCount" with
    | none => simp [hrc, hcc, Res.state]
    | some cc0 =>
      simp only [hrc, hcc, Region.attr, regionFromConfig, Region.setB,
        validateRegionWidths]
      cases hc1 : Dict.get? (Dict.set rc.regionParams "inputWidth" cc0)
          "columnCount" with
      | none => simp [hc1, Res.state]
      | some cc =>
        by_cases hpw : pw = cc
        · simp only [hc1, hpw, ne_eq, not_true_eq_false, ite_false, if_neg,
            not_false_eq_true]
          cases hc2 : Dict.get? (Dict.set rc.regionParams "inputWidth" cc0)
              "cellsPerColumn" with
          | none => simp [hc2, Res.state]
          | some cpc => simp [hc2, Res.state]
        · simp [hc1, hpw, Res.state]

theorem buildTP_state_sensorCfg (s p : String) (pw : Int) (st : BuildSt) :
    (buildTP s p pw st).state.config.sensorRegionConfig =
      st.config.sensorRegionConfig := by
  unfold buildTP
  cases hrc : st.config.tpRegionConfig with
  | none => simp [hrc, Res.state]
  | some rc =>
    simp only [hrc, Region.attr, regionFromConfig, Region.setB,
      Dict.get?_set_self, validateRegionWidths]
    simp [Res.state]

theorem buildClassifier_state_config (f : String → Bool) (s p : String)
    (st : BuildSt) :
    (buildClassifier f s p st).state.config = st.config := by
  unfold buildClassifier
  cases hrc : st.config.classifierRegionConfig with
  | none => simp [hrc, Res.state]
  | some rc =>
    by_cases hf : f rc.regionType
    · simp [hrc, hf, Res.state]
    · simp [hrc, hf, Res.state]

theorem createNetworkFrom_sensorCfg (encoder : Option EncoderObj)
    (f : String → Bool) (st0 : BuildSt) :
    (createNetworkFrom encoder f st0).state.config.sensorRegionConfig =
      st0.config.sensorRegionConfig := by
  unfold createNetworkFrom
  have h1 := buildSensor_state_config encoder st0
  cases hs : buildSensor encoder st0 with
  | err st1 e =>
    rw [hs] at h1
    simp only [Res.state] at h1 ⊢
    rw [h1]
  | ok st1 v =>
    obtain ⟨sn, attr⟩ := v
    rw [hs] at h1
    simp only [Res.state] at h1
    simp only
    cases hw : sensorAttrWidth attr with
    | error e => simp [Res.state, h1]
    | ok w0 =>
      cases hnr : collectEnabled (configKeys st1.config) with
      | error e => simp [Res.state, h1]
      | ok nr =>
        simp only
        have hsp : (if "spRegionConfig" ∈ nr then buildSP sn sn w0 w0 st1
            else Res.ok st1 (sn, w0)).state.config.sensorRegionConfig =
            st1.config.sensorRegionConfig := by
          by_cases hc : "spRegionConfig" ∈ nr
          · simp [hc, buildSP_state_sensorCfg]
          · simp [hc, Res.state]
        cases hspr : (if "spRegionConfig" ∈ nr then buildSP sn sn w0 w0 st1
            else Res.ok st1 (sn, w0)) with
        | err st2 e =>
          rw [hspr] at hsp
          simp only [Res.state] at hsp ⊢
          rw [hsp, h1]
        | ok st2 v2 =>
          obtain ⟨p1, w1⟩ := v2
          rw [hspr] at hsp
          simp only [Res.state] at hsp
          simp only
          have htm : (if "tmRegionConfig" ∈ nr then buildTM sn p1 w1 st2
              else Res.ok st2 (p1, w1)).state.config.sensorRegionConfig =
              st2.config.sensorRegionConfig := by
            by_cases hc : "tmRegionConfig" ∈ nr
            · simp [hc, buildTM_state_sensorCfg]
            · simp [hc, Res.state]
          cases htmr : (if "tmRegionConfig" ∈ nr then buildTM sn p1 w1 st2
              else Res.ok st2 (p1, w1)) with
          | err st3 e =>
            rw [htmr] at htm
            simp only [Res.state] at htm ⊢
            rw [htm, hsp, h1]
          | ok st3 v3 =>
            obtain ⟨p2, w2⟩ := v3
            rw [htmr] at htm
            simp only [Res.state] at htm
            simp only
            have htp : (if "tpRegionConfig" ∈ nr then buildTP sn p2 w2 st3
                else Res.ok st3 p2).state.config.sensorRegionConfig =
                st3.config.sensorRegionConfig := by
              by_cases hc : "tpRegionConfig" ∈ nr
              · simp [hc, buildTP_state_sensorCfg]
              · simp [hc, Res.state]
            cases htpr : (if "tpRegionConfig" ∈ nr then buildTP sn p2 w2 st3
                else Res.ok st3 p2) with
            | err st4 e =>
              rw [htpr] at htp
              simp only [Res.state] at htp ⊢
              rw [htp, htm, hsp, h1]
            | ok st4 p3 =>
              rw [htpr] at htp
              simp only [Res.state] at htp
              simp only
              have hcl := buildClassifier_state_config f sn p3 st4
              rw [hcl, htp, htm, hsp, h1]

theorem buildTM_mismatch_err {s p : String} {pw : Int} {st : BuildSt}
    {rc : RegionConfig} {cc : Int}
    (hrc : st.config.tmRegionConfig = some rc)
    (hcc : Dict.get? rc.regionParams "columnCount" = some cc)
    (hne : pw ≠ cc) :
    buildTM s p pw st = Res.err
      { config :=
          { st.config with
            tmRegionConfig :=
              some { rc with
                     regionParams := Dict.set rc.regionParams "inputWidth" cc } },
        regions := st.regions ++
          [((regionFromConfig
              { rc with
                regionParams := Dict.set rc.regionParams "inputWidth" cc }).setB
            "computePredictedActiveCellIndices" true).setB "anomalyMode" true],
        trace := st.trace ++ [Event.configWrite "tmRegionConfig" "inputWidth"] ++
          createRegionEvents rc.regionName ++
          [Event.paramSet rc.regionName "computePredictedActiveCellIndices" true,
           Event.paramSet rc.regionName "anomalyMode" true] }
      (PyErr.valueError (widthMismatchMsg pw cc)) := by
  unfold buildTM
  rw [hrc]
  simp only [Region.attr, regionFromConfig, Region.setB]
  rw [hcc]
  have hcol : Dict.get? (Dict.set rc.regionParams "inputWidth" cc) "columnCount"
      = Dict.get? rc.regionParams "columnCount" :=
    Dict.get?_set_ne _ _ (by decide)
  simp only [Region.attr, regionFromConfig, Region.setB, hcol, hcc,
    validateRegionWidths, hne, ne_eq, not_false_eq_true, if_true, ite_true]

theorem createNetworkFrom_ok_elim {encoder : Option EncoderObj}
    {f : String → Bool} {st0 st : BuildSt}
    (h : createNetworkFrom encoder f st0 = Res.ok st ()) :
    ∃ st1 sn attr w0 nr st2 p1 w1 st3 p2 w2 st4 p3,
      buildSensor encoder st0 = Res.ok st1 (sn, attr) ∧
      sensorAttrWidth attr = Except.ok w0 ∧
      collectEnabled (configKeys st1.config) = Except.ok nr ∧
      (if "spRegionConfig" ∈ nr then buildSP sn sn w0 w0 st1
       else Res.ok st1 (sn, w0)) = Res.ok st2 (p1, w1) ∧
      (if "tmRegionConfig" ∈ nr then buildTM sn p1 w1 st2
       else Res.ok st2 (p1, w1)) = Res.ok st3 (p2, w2) ∧
      (if "tpRegionConfig" ∈ nr then buildTP sn p2 w2 st3
       else Res.ok st3 p2) = Res.ok st4 p3 ∧
      buildClassifier f sn p3 st4 = Res.ok st () := by
  unfold createNetworkFrom at h
  cases hs : buildSensor encoder st0 with
  | err st1 e => rw [hs] at h; cases h
  | ok st1 v =>
    obtain ⟨sn, attr⟩ := v
    rw [hs] at h
    simp only at h
    cases hw : sensorAttrWidth attr with
    | error e => rw [hw] at h; simp at h
    | ok w0 =>
      rw [hw] at h
      simp only at h
      cases hnr : collectEnabled (configKeys st1.config) with
      | error e => rw [hnr] at h; simp at h
      | ok nr =>
        rw [hnr] at h
        simp only at h
        cases hsp : (if "spRegionConfig" ∈ nr then buildSP sn sn w0 w0 st1
            else Res.ok st1 (sn, w0)) with
        | err stx e => rw [hsp] at h; simp at h
        | ok st2 v2 =>
          obtain ⟨p1, w1⟩ := v2
          rw [hsp] at h
          simp only at h
          cases htm : (if "tmRegionConfig" ∈ nr then buildTM sn p1 w1 st2
              else Res.ok st2 (p1, w1)) with
          | err stx e => rw [htm] at h; simp at h
          | ok st3 v3 =>
            obtain ⟨p2, w2⟩ := v3
            rw [htm] at h
            simp only at h
            cases htp : (if "tpRegionConfig" ∈ nr then buildTP sn p2 w2 st3
                else Res.ok st3 p2) with
            | err stx e => rw [htp] at h; simp at h
            | ok st4 p3 =>
              rw [htp] at h
              simp only at h
              exact ⟨st1, sn, attr, w0, nr, st2, p1, w1, st3, p2, w2, st4, p3,
                rfl, hw, hnr, hsp, htm, htp, h⟩

/-- All configuration writes in an event list are `inputWidth` injections for
the SP, TM or TP stage. -/
def okWrites (l : List Event) : Prop :=
  ∀ k p, Event.configWrite k p ∈ l →
    ((k = "spRegionConfig" ∨ k = "tmRegionConfig" ∨ k = "tpRegionConfig") ∧
      p = "inputWidth")

theorem okWrites_append {l1 l2 : List Event} (h1 : okWrites l1)
    (h2 : okWrites l2) : okWrites (l1 ++ l2) := by
  intro k p h
  rcases List.mem_append.mp h with hm | hm
  · exact h1 k p hm
  · exact h2 k p hm

theorem okWrites_nil : okWrites [] := by
  intro k p h
  cases h

theorem okWrites_createRegionEvents (n : String) :
    okWrites (createRegionEvents n) := by
  intro k p h
  simp [createRegionEvents] at h

theorem okWrites_linkEvents (s q n : String) : okWrites (linkEvents s q n) := by
  intro k p h
  simp [linkEvents] at h

/-- On success, assembly appends to the incoming trace only events whose
configuration writes are `inputWidth` injections for SP, TM or TP. -/
theorem createNetworkFrom_trace_writes {encoder : Option EncoderObj}
    {f : String → Bool} {st0 st : BuildSt}
    (h : createNetworkFrom encoder f st0 = Res.ok st ()) :
    ∃ rest, st.trace = st0.trace ++ rest ∧ okWrites rest := by
  obtain ⟨st1, sn, attr, w0, nr, st2, p1, w1, st3, p2, w2, st4, p3,
    hs, hw, hnr, hsp, htm, htp, hcl⟩ := createNetworkFrom_ok_elim h
  obtain ⟨sc0, ev0, _, _, _, _, _, _, htr1⟩ := buildSensor_ok_elim hs
  have h1 : ∃ r1, st1.trace = st0.trace ++ r1 ∧ okWrites r1 := by
    refine ⟨[Event.created sc0.regionName], htr1, ?_⟩
    intro k p hm
    simp at hm
  have h2 : ∃ r2, st2.trace = st1.trace ++ r2 ∧ okWrites r2 := by
    by_cases hb : "spRegionConfig" ∈ nr
    · rw [if_pos hb] at hsp
      obtain ⟨rc, _, _, _, _, _, _, htr2⟩ := buildSP_ok_elim hsp
      refine ⟨[Event.configWrite "spRegionConfig" "inputWidth"] ++
        createRegionEvents rc.regionName ++ linkEvents sn sn rc.regionName,
        by rw [htr2]; simp, ?_⟩
      refine okWrites_append (okWrites_append ?_
        (okWrites_createRegionEvents _)) (okWrites_linkEvents _ _ _)
      intro k p hm
      simp at hm
      exact ⟨Or.inl hm.1, hm.2⟩
    · rw [if_neg hb] at hsp
      cases hsp
      exact ⟨[], by simp, okWrites_nil⟩
  have h3 : ∃ r3, st3.trace = st2.trace ++ r3 ∧ okWrites r3 := by
    by_cases hb : "tmRegionConfig" ∈ nr
    · rw [if_pos hb] at htm
      obtain ⟨rc, cc, cpc, _, _, _, _, _, _, _, _, htr3⟩ := buildTM_ok_elim htm
      refine ⟨[Event.configWrite "tmRegionConfig" "inputWidth"] ++
        createRegionEvents rc.regionName ++
        [Event.paramSet rc.regionName "computePredictedActiveCellIndices" true,
         Event.paramSet rc.regionName "anomalyMode" true] ++
        linkEvents sn p1 rc.regionName,
        by rw [htr3]; simp, ?_⟩
      refine okWrites_append (okWrites_append (okWrites_append ?_
        (okWrites_createRegionEvents _)) ?_) (okWrites_linkEvents _ _ _)
      · intro k p hm
        simp at hm
        exact ⟨Or.inr (Or.inl hm.1), hm.2⟩
      · intro k p hm
        simp at hm
    · rw [if_neg hb] at htm
      cases htm
      exact ⟨[], by simp, okWrites_nil⟩
  have h4 : ∃ r4, st4.trace = st3.trace ++ r4 ∧ okWrites r4 := by
    by_cases hb : "tpRegionConfig" ∈ nr
    · rw [if_pos hb] at htp
      obtain ⟨rc, _, _, _, _, htr4⟩ := buildTP_ok_elim htp
      refine ⟨[Event.configWrite "tpRegionConfig" "inputWidth"] ++
        createRegionEvents rc.regionName ++ linkEvents sn p2 rc.regionName,
        by rw [htr4]; simp, ?_⟩
      refine okWrites_append (okWrites_append ?_
        (okWrites_createRegionEvents _)) (okWrites_linkEvents _ _ _)
      intro k p hm
      simp at hm
      exact ⟨Or.inr (Or.inr hm.1), hm.2⟩
    · rw [if_neg hb] at htp
      cases htp
      exact ⟨[], by simp, okWrites_nil⟩
  have h5 : ∃ r5, st.trace = st4.trace ++ r5 ∧ okWrites r5 := by
    obtain ⟨rc, _, _, _, htr5⟩ := buildClassifier_ok_elim hcl
    refine ⟨createRegionEvents rc.regionName ++
      [Event.linked p3 rc.regionName "" "",
       Event.linked sn rc.regionName "categoryOut" "categoryIn"] ++
      (if f rc.regionType then
        [Event.linked sn rc.regionName "sequenceIdOut" "partitionIn"] else []),
      by rw [htr5]; simp, ?_⟩
    refine okWrites_append (okWrites_append
      (okWrites_createRegionEvents _) ?_) ?_
    · intro k p hm
      simp at hm
    · intro k p hm
      by_cases hf : f rc.regionType
      · simp [hf] at hm
      · simp [hf] at hm
  obtain ⟨r1, e1, o1⟩ := h1
  obtain ⟨r2, e2, o2⟩ := h2
  obtain ⟨r3, e3, o3⟩ := h3
  obtain ⟨r4, e4, o4⟩ := h4
  obtain ⟨r5, e5, o5⟩ := h5
  refine ⟨r1 ++ r2 ++ r3 ++ r4 ++ r5, ?_, ?_⟩
  · rw [e5, e4, e3, e2, e1]
    simp
  · exact okWrites_append (okWrites_append (okWrites_append
      (okWrites_append o1 o2) o3) o4) o5

/-! Lemmas about the learning-toggle layer. -/

theorem Region.setB_name (r : Region) (p : String) (v : Bool) :
    (r.setB p v).name = r.name := rfl

theorem find?_netSetParam_ne {net : Net} {n m : String} (p : String) (v : Bool)
    (hnm : n ≠ m) :
    (netSetParam net n p v).find? (fun r => r.name == m) =
      net.find? (fun r => r.name == m) := by
  induction net with
  | nil => rfl
  | cons r rest ih =>
    have hcons : netSetParam (r :: rest) n p v =
        (if r.name == n then r.setB p v else r) :: netSetParam rest n p v := rfl
    rw [hcons, List.find?_cons, List.find?_cons]
    have hname : (if r.name == n then r.setB p v else r).name = r.name := by
      by_cases hrn : (r.name == n) = true
      · rw [hrn]
        simp [Region.setB_name]
      · rw [Bool.not_eq_true] at hrn
        rw [hrn]
        simp
    by_cases hb : r.name = m
    · have hrn : (r.name == n) = false :=
        beq_false_of_ne (by rw [hb]; exact fun hx => hnm hx.symm)
      have hbeq : (r.name == m) = true := by simp [hb]
      rw [show ((if r.name == n then r.setB p v else r).name == m) = true from
        by rw [hname]; exact hbeq, hbeq]
      simp only
      rw [hrn]
      simp
    · have hbeq : (r.name == m) = false := beq_false_of_ne hb
      rw [show ((if r.name == n then r.setB p v else r).name == m) = false from
        by rw [hname]; exact hbeq, hbeq]
      simp only
      exact ih

theorem find?_netSetParam_self {net : Net} {n : String} (p : String) (v : Bool) :
    (netSetParam net n p v).find? (fun r => r.name == n) =
      (net.find? (fun r => r.name == n)).map (fun r => r.setB p v) := by
  induction net with
  | nil => rfl
  | cons r rest ih =>
    have hcons : netSetParam (r :: rest) n p v =
        (if r.name == n then r.setB p v else r) :: netSetParam rest n p v := rfl
    rw [hcons, List.find?_cons, List.find?_cons]
    have hname : (if r.name == n then r.setB p v else r).name = r.name := by
      by_cases hrn : (r.name == n) = true
      · rw [hrn]
        simp [Region.setB_name]
      · rw [Bool.not_eq_true] at hrn
        rw [hrn]
        simp
    by_cases hb : r.name = n
    · have hrn : (r.name == n) = true := by simp [hb]
      rw [show ((if r.name == n then r.setB p v else r).name == n) = true from
        by rw [hname]; exact hrn, hrn]
      simp
    · have hrn : (r.name == n) = false := beq_false_of_ne hb
      rw [show ((if r.name == n then r.setB p v else r).name == n) = false from
        by rw [hname]; exact hrn, hrn]
      simp only
      exact ih

theorem regionsLookup_setParam_ne {net : Net} {n m : String} (p : String)
    (v : Bool) (hnm : n ≠ m) :
    regionsLookup (netSetParam net n p v) (some m) =
      regionsLookup net (some m) := by
  unfold regionsLookup
  simp only
  rw [find?_netSetParam_ne p v hnm]

theorem regionsLookup_setParam_self {net : Net} {n : String} {r : Region}
    (p : String) (v : Bool)
    (hlk : regionsLookup net (some n) = Except.ok r) :
    regionsLookup (netSetParam net n p v) (some n) =
      Except.ok (r.setB p v) := by
  unfold regionsLookup at hlk ⊢
  simp only at hlk ⊢
  rw [find?_netSetParam_self p v]
  cases hf : net.find? (fun rr => rr.name == n) with
  | none => rw [hf] at hlk; cases hlk
  | some r0 =>
    rw [hf] at hlk
    simp only at hlk
    cases hlk
    rfl

theorem learnStep_eq_enabled {net : Net} {c : RegionConfig} {key : String}
    {mode : Bool} {r : Region}
    (he : c.regionEnabled.getD false = true)
    (hlk : regionsLookup net (some c.regionName) = Except.ok r) :
    learnStep net (some c) key mode = Except.ok
      (netSetParam net c.regionName "learningMode" mode,
       [Event.paramSet c.regionName "learningMode" mode],
       some (r.setB "learningMode" mode)) := by
  unfold learnStep
  simp only
  rw [he, hlk]
  simp

theorem learnStep_eq_enabled_err {net : Net} {c : RegionConfig} {key : String}
    {mode : Bool} {e : PyErr}
    (he : c.regionEnabled.getD false = true)
    (hlk : regionsLookup net (some c.regionName) = Except.error e) :
    learnStep net (some c) key mode = Except.error e := by
  unfold learnStep
  simp only
  rw [he, hlk]
  simp

theorem learnStep_eq_disabled {net : Net} {c : RegionConfig} {key : String}
    {mode : Bool} (he : c.regionEnabled.getD false = false) :
    learnStep net (some c) key mode = Except.ok (net, [], none) := by
  unfold learnStep
  simp only
  rw [he]
  simp

theorem learnStep_ok_elim {net : Net} {c : RegionConfig} {key : String}
    {mode : Bool} {net1 : Net} {evs : List Event} {hdl : Option Region}
    (h : learnStep net (some c) key mode = Except.ok (net1, evs, hdl)) :
    (c.regionEnabled.getD false = true →
      net1 = netSetParam net c.regionName "learningMode" mode ∧
      evs = [Event.paramSet c.regionName "learningMode" mode] ∧
      ∃ r, regionsLookup net (some c.regionName) = Except.ok r ∧
        hdl = some (r.setB "learningMode" mode)) ∧
    (c.regionEnabled.getD false = false →
      net1 = net ∧ evs = [] ∧ hdl = none) := by
  cases he : c.regionEnabled.getD false with
  | true =>
    refine ⟨fun _ => ?_, fun hfalse => absurd hfalse (by simp)⟩
    cases hlk : regionsLookup net (some c.regionName) with
    | error e =>
      rw [learnStep_eq_enabled_err he hlk] at h
      cases h
    | ok r =>
      rw [learnStep_eq_enabled he hlk] at h
      injection h with h2
      injection h2 with ha hbc
      injection hbc with hb hc
      exact ⟨ha.symm, hb.symm, r, rfl, hc.symm⟩
  | false =>
    refine ⟨fun htrue => absurd htrue (by simp), fun _ => ?_⟩
    rw [learnStep_eq_disabled he] at h
    injection h with h2
    injection h2 with ha hbc
    injection hbc with hb hc
    exact ⟨ha.symm, hb.symm, hc.symm⟩

theorem mem_ite_singleton {α : Type} {b : Bool} {x y : α}
    (h : x ∈ (if b then [y] else [])) : x = y := by
  cases b <;> simp_all

/-! Claim theorems. -/

/-- C1 (counterexample): a configuration in which two consecutive enabled
stages declare mismatched widths — the sensor encoder declares width 4 while
the enabled SP stage declares input width 7 — for which network assembly
nevertheless succeeds without raising any error: the declared SP input width
is silently overwritten before validation. -/
theorem c1_counterexample :
    Dict.get? spDeclared7.regionParams "inputWidth" = some 7 ∧
    multiEncoderWidth encodersDictX = 4 ∧
    (7 : Int) ≠ 4 ∧
    cfg1cex.spRegionConfig = some spDeclared7 ∧
    (createNetwork cfg1cex none (fun _ => false)).isOk = true := by
  refine ⟨by decide, by decide, by decide, by decide, by decide⟩

/-- C1 (amended): only the temporal-memory join performs an effective width
check (the SP and TP input widths are overwritten before validation, so
declared mismatches there are silently ignored).  Whenever assembly reaches
the TM join with previous effective width `w1` and the enabled TM stage
declares a different `columnCount` `cc`, `createNetwork` raises the
ValueError whose message carries both widths, the TM stage itself is the last
stage created, and no stage beyond the mismatch point (TP, classifier) is
created. -/
theorem c1_amended {cfg : NetworkConfig} {encoder : Option EncoderObj}
    {f : String → Bool} {st1 st2 : BuildSt} {sn p1 : String}
    {attr : SensorEncoderAttr} {w0 w1 : Int} {nr : List String}
    {rc : RegionConfig} {cc : Int}
    (hs : buildSensor encoder { config := cfg, regions := [], trace := [] } =
      Res.ok st1 (sn, attr))
    (hw : sensorAttrWidth attr = Except.ok w0)
    (hnr : collectEnabled (configKeys st1.config) = Except.ok nr)
    (hsp : (if "spRegionConfig" ∈ nr then buildSP sn sn w0 w0 st1
       else Res.ok st1 (sn, w0)) = Res.ok st2 (p1, w1))
    (htmm : "tmRegionConfig" ∈ nr)
    (hrc : st2.config.tmRegionConfig = some rc)
    (hcc : Dict.get? rc.regionParams "columnCount" = some cc)
    (hne : w1 ≠ cc) :
    ∃ stE,
      createNetwork cfg encoder f =
        Res.err stE (PyErr.valueError (widthMismatchMsg w1 cc)) ∧
      stE.regions.map Region.name =
        st2.regions.map Region.name ++ [rc.regionName] ∧
      (∃ pre mid, widthMismatchMsg w1 cc =
        pre ++ toString w1 ++ mid ++ toString cc ++ ".") := by
  have htm := @buildTM_mismatch_err sn p1 w1 st2 rc cc hrc hcc hne
  unfold createNetwork createNetworkFrom
  rw [hs]
  simp only
  rw [hw]
  simp only
  rw [hnr]
  simp only
  rw [hsp]
  simp only
  rw [if_pos htmm, htm]
  simp only
  refine ⟨_, rfl, ?_, "Region widths do not fit. Output width = ",
    ", input width = ", rfl⟩
  simp [regionFromConfig, Region.setB]

/-- C1 (witness): the amended width-mismatch behavior at a concrete
configuration — sensor width 4, SP disabled, TM column count 5. -/
theorem c1_witness :
    ∃ stE,
      createNetwork cfg1tm none (fun _ => false) =
        Res.err stE (PyErr.valueError (widthMismatchMsg 4 5)) ∧
      stE.regions.map Region.name = ["sensor", "TM"] ∧
      (∃ pre mid, widthMismatchMsg 4 5 =
        pre ++ toString (4 : Int) ++ mid ++ toString (5 : Int) ++ ".") :=
  @c1_amended cfg1tm none (fun _ => false) st1W st1W "sensor" "sensor"
    (SensorEncoderAttr.obj (EncoderObj.multi encodersDictX)) 4 4
    ["sensorRegionConfig", "tmRegionConfig", "tpRegionConfig",
     "classifierRegionConfig"] tmCfg5 5
    (by decide) (by decide) (by decide) (by decide) (by decide) (by decide)
    (by decide) (by decide)

/-- C3 (counterexample): in a fully enabled assembled network, the classifier
stage receives neither the sensor's sequence-reset link nor its sequence-id
side-channel link (while the TP stage, an intermediate stage, does receive
the reset link), contradicting the claim that every stage downstream of the
sensor including the classifier receives both side-channel links. -/
theorem c3_counterexample :
    (createNetwork cfgX none (fun _ => false)).isOk = true ∧
    ((createNetwork cfgX none (fun _ => false)).state.trace.filter
      (isLinkInto "classifier" "resetIn")).length = 0 ∧
    ((createNetwork cfgX none (fun _ => false)).state.trace.filter
      (isLinkInto "classifier" "sequenceIdIn")).length = 0 ∧
    ((createNetwork cfgX none (fun _ => false)).state.trace.filter
      (isLinkInto "TP" "resetIn")).length = 1 := by
  refine ⟨by decide, by decide, by decide, by decide⟩

/-- The configuration produced by the scalar-bound injection: the scalar
encoder's `minval` and `maxval` overwritten with the observed bounds. -/
def injectBounds (cfg : NetworkConfig) (sc : SensorConfig) (d : EncoderDict)
    (ps : EncParams) (lo hi : Int) : NetworkConfig :=
  let ps1 := Dict.set (Dict.set ps "minval" (EncVal.int lo))
    "maxval" (EncVal.int hi)
  let sc1 :=
    { sc with encoders := some (EncodersVal.dict (Dict.set d "scalarEncoder" ps1)) }
  { cfg with sensorRegionConfig := some sc1 }

theorem setScalarEncoderMinMax_eq {cfg : NetworkConfig} {ds : DataSource}
    {sc : SensorConfig} {d : EncoderDict} {ps : EncParams}
    (hsc : cfg.sensorRegionConfig = some sc)
    (hd : sc.encoders = some (EncodersVal.dict d))
    (hps : Dict.get? d "scalarEncoder" = some ps) :
    setScalarEncoderMinMax cfg ds = Except.ok
      (injectBounds cfg sc d ps (ds.getFieldMin (Dict.get? ps "fieldname"))
        (ds.getFieldMax (Dict.get? ps "fieldname")),
       [Event.configWrite "sensorRegionConfig" "minval",
        Event.configWrite "sensorRegionConfig" "maxval"]) := by
  unfold setScalarEncoderMinMax getEncoderParam
  rw [hsc]
  simp only [hd, hps]
  simp [injectBounds]

/-- C2: for every configuration containing a (non-empty) scalar encoder
entry and a data source whose bound field has observed minimum `lo` and
maximum `hi`, after `createAndConfigureNetwork` runs the configuration's
scalar encoder carries `minval = lo` and `maxval = hi` exactly, regardless of
the `minval`/`maxval` values the configuration specified beforehand (none of
the hypotheses constrain them). -/
theorem c2_scalar_bounds {ds : DataSource} {cfg : NetworkConfig}
    {encoder : Option EncoderObj} {f : String → Bool}
    {sc : SensorConfig} {d : EncoderDict} {ps : EncParams} {lo hi : Int}
    (hsc : cfg.sensorRegionConfig = some sc)
    (hd : sc.encoders = some (EncodersVal.dict d))
    (hps : Dict.get? d "scalarEncoder" = some ps)
    (hne : ps ≠ [])
    (hlo : ds.getFieldMin (Dict.get? ps "fieldname") = lo)
    (hhi : ds.getFieldMax (Dict.get? ps "fieldname") = hi) :
    ∃ sc2 d2 ps2,
      (createAndConfigureNetwork ds cfg encoder f).state.config.sensorRegionConfig
        = some sc2 ∧
      sc2.encoders = some (EncodersVal.dict d2) ∧
      Dict.get? d2 "scalarEncoder" = some ps2 ∧
      Dict.get? ps2 "minval" = some (EncVal.int lo) ∧
      Dict.get? ps2 "maxval" = some (EncVal.int hi) := by
  have hdne : d.isEmpty = false := by
    cases d with
    | nil => simp [Dict.get?] at hps
    | cons a l => rfl
  have hpse : ps.isEmpty = false := by
    cases ps with
    | nil => exact absurd rfl hne
    | cons a l => rfl
  have hset : setScalarEncoderMinMax cfg ds = Except.ok
      (injectBounds cfg sc d ps lo hi,
       [Event.configWrite "sensorRegionConfig" "minval",
        Event.configWrite "sensorRegionConfig" "maxval"]) := by
    rw [setScalarEncoderMinMax_eq hsc hd hps, hlo, hhi]
  unfold createAndConfigureNetwork
  rw [hsc]
  simp only [hd, EncodersVal.truthy, hdne, Bool.not_false, Bool.true_and,
    Bool.false_and, Bool.and_false, Bool.not_true, hps, hpse,
    Bool.false_eq_true, if_false, ite_false, if_true, ite_true]
  rw [hset]
  simp only
  rw [createNetworkFrom_sensorCfg]
  exact ⟨_, _, _, rfl, rfl, Dict.get?_set_self _ _ _,
    by rw [Dict.get?_set_ne _ _ (by decide), Dict.get?_set_self],
    Dict.get?_set_self _ _ _⟩

/-- C2 (witness): the scalar bounds of `cfgX` (configured as 0 and 100) are
overwritten by the data source's observed bounds 3 and 97. -/
theorem c2_witness :
    ∃ sc2 d2 ps2,
      (createAndConfigureNetwork dsX cfgX none
        (fun _ => false)).state.config.sensorRegionConfig = some sc2 ∧
      sc2.encoders = some (EncodersVal.dict d2) ∧
      Dict.get? d2 "scalarEncoder" = some ps2 ∧
      Dict.get? ps2 "minval" = some (EncVal.int 3) ∧
      Dict.get? ps2 "maxval" = some (EncVal.int 97) :=
  @c2_scalar_bounds dsX cfgX none (fun _ => false) sensorCfgX encodersDictX
    scalarParamsX 3 97 (by decide) (by decide) (by decide) (by decide)
    (by decide) (by decide)

/-- C3 (amended): every optional intermediate stage (SP, TM, TP), when
created during assembly, receives exactly the primary link from the previous
stage plus the sensor's reset and sequence-id side channels; the classifier
instead receives the primary link from the last stage and the sensor's
category-label link, plus a sequence-id to partition link exactly when its
input spec exposes a partition port — in particular no reset and no
sequence-id-input link reaches the classifier. -/
theorem c3_amended :
    (∀ (s p : String) (pw sw : Int) (st st2 : BuildSt) (n : String) (w : Int),
      buildSP s p pw sw st = Res.ok st2 (n, w) →
      st2.trace = st.trace ++ [Event.configWrite "spRegionConfig" "inputWidth"] ++
        createRegionEvents n ++ linkEvents s p n) ∧
    (∀ (s p : String) (pw : Int) (st st2 : BuildSt) (n : String) (w : Int),
      buildTM s p pw st = Res.ok st2 (n, w) →
      st2.trace = st.trace ++ [Event.configWrite "tmRegionConfig" "inputWidth"] ++
        createRegionEvents n ++
        [Event.paramSet n "computePredictedActiveCellIndices" true,
         Event.paramSet n "anomalyMode" true] ++ linkEvents s p n) ∧
    (∀ (s p : String) (pw : Int) (st st2 : BuildSt) (n : String),
      buildTP s p pw st = Res.ok st2 n →
      st2.trace = st.trace ++ [Event.configWrite "tpRegionConfig" "inputWidth"] ++
        createRegionEvents n ++ linkEvents s p n) ∧
    (∀ (f : String → Bool) (s p : String) (st st2 : BuildSt),
      buildClassifier f s p st = Res.ok st2 () →
      ∃ rc, st.config.classifierRegionConfig = some rc ∧
        st2.trace = st.trace ++ createRegionEvents rc.regionName ++
          [Event.linked p rc.regionName "" "",
           Event.linked s rc.regionName "categoryOut" "categoryIn"] ++
          (if f rc.regionType then
            [Event.linked s rc.regionName "sequenceIdOut" "partitionIn"]
           else [])) := by
  refine ⟨?_, ?_, ?_, ?_⟩
  · intro s p pw sw st st2 n w h
    obtain ⟨rc, _, hn, _, _, _, _, htr⟩ := buildSP_ok_elim h
    subst hn
    exact htr
  · intro s p pw st st2 n w h
    obtain ⟨rc, cc, cpc, _, hn, _, _, _, _, _, _, htr⟩ := buildTM_ok_elim h
    subst hn
    exact htr
  · intro s p pw st st2 n h
    obtain ⟨rc, _, hn, _, _, htr⟩ := buildTP_ok_elim h
    subst hn
    exact htr
  · intro f s p st st2 h
    obtain ⟨rc, hrc, _, _, htr⟩ := buildClassifier_ok_elim h
    exact ⟨rc, hrc, htr⟩

/-- C3 (witness): the amended link topology at the concrete fully enabled
configuration `cfgX`, one application per stage. -/
theorem c3_witness :
    (st2X.trace = st1X.trace ++ [Event.configWrite "spRegionConfig" "inputWidth"] ++
      createRegionEvents "SP" ++ linkEvents "sensor" "sensor" "SP") ∧
    (st3X.trace = st2X.trace ++ [Event.configWrite "tmRegionConfig" "inputWidth"] ++
      createRegionEvents "TM" ++
      [Event.paramSet "TM" "computePredictedActiveCellIndices" true,
       Event.paramSet "TM" "anomalyMode" true] ++ linkEvents "sensor" "SP" "TM") ∧
    (st4X.trace = st3X.trace ++ [Event.configWrite "tpRegionConfig" "inputWidth"] ++
      createRegionEvents "TP" ++ linkEvents "sensor" "TM" "TP") ∧
    (∃ rc, st4X.config.classifierRegionConfig = some rc ∧
      st5X.trace = st4X.trace ++ createRegionEvents rc.regionName ++
        [Event.linked "TP" rc.regionName "" "",
         Event.linked "sensor" rc.regionName "categoryOut" "categoryIn"] ++
        (if (fun _ => false) rc.regionType then
          [Event.linked "sensor" rc.regionName "sequenceIdOut" "partitionIn"]
         else [])) :=
  ⟨c3_amended.1 "sensor" "sensor" 4 4 st1X st2X "SP" 4 (by decide),
   c3_amended.2.1 "sensor" "SP" 4 st2X st3X "TM" 32 (by decide),
   c3_amended.2.2.1 "sensor" "TM" 32 st3X st4X "TP" (by decide),
   c3_amended.2.2.2 (fun _ => false) "sensor" "TP" st4X st5X (by decide)⟩

/-- C5: when the TM stage is enabled, the created TM region's `inputWidth`
parameter equals its configured `columnCount` (not its cell count); when the
TP stage is enabled, the created TP region's `inputWidth` equals the previous
stage's effective output width — `columnCount * cellsPerColumn` when the
previous stage is the TM, or the SP's `columnCount` when the previous stage
is the SP. -/
theorem c5_input_widths {cfg : NetworkConfig} {encoder : Option EncoderObj}
    {f : String → Bool} {st : BuildSt}
    {sc : SensorConfig} {spc tmc tpc clc : RegionConfig}
    {b1 b2 b3 b4 b5 : Bool}
    (hok : createNetwork cfg encoder f = Res.ok st ())
    (h1 : cfg.sensorRegionConfig = some sc) (e1 : sc.regionEnabled = some b1)
    (h2 : cfg.spRegionConfig = some spc) (e2 : spc.regionEnabled = some b2)
    (h3 : cfg.tmRegionConfig = some tmc) (e3 : tmc.regionEnabled = some b3)
    (h4 : cfg.tpRegionConfig = some tpc) (e4 : tpc.regionEnabled = some b4)
    (h5 : cfg.classifierRegionConfig = some clc)
    (e5 : clc.regionEnabled = some b5) :
    (b3 = true →
      ∃ cc r, Dict.get? tmc.regionParams "columnCount" = some cc ∧
        r ∈ st.regions ∧ r.name = tmc.regionName ∧
        Dict.get? r.creationParams "inputWidth" = some cc) ∧
    (b3 = true → b4 = true →
      ∃ cc cpc r, Dict.get? tmc.regionParams "columnCount" = some cc ∧
        Dict.get? tmc.regionParams "cellsPerColumn" = some cpc ∧
        r ∈ st.regions ∧ r.name = tpc.regionName ∧
        Dict.get? r.creationParams "inputWidth" = some (cc * cpc)) ∧
    (b2 = true → b3 = false → b4 = true →
      ∃ scc r, Dict.get? spc.regionParams "columnCount" = some scc ∧
        r ∈ st.regions ∧ r.name = tpc.regionName ∧
        Dict.get? r.creationParams "inputWidth" = some scc) := by
  unfold createNetwork at hok
  obtain ⟨st1, sn, attr, w0, nr, st2, p1, w1, st3, p2, w2, st4, p3,
    hs, hw, hnr, hsp, htm, htp, hcl⟩ := createNetworkFrom_ok_elim hok
  obtain ⟨sc0, ev0, hsc0, hev0, hsn0, hassign0, hcfg1, hreg1, htr1⟩ :=
    buildSensor_ok_elim hs
  have hcfg1A : st1.config = cfg := hcfg1
  rw [hcfg1A, collectEnabled_eq h1 e1 h2 e2 h3 e3 h4 e4 h5 e5] at hnr
  injection hnr with hnrA
  subst hnrA
  have hspFacts : st2.config.tmRegionConfig = some tmc ∧
      st2.config.tpRegionConfig = some tpc ∧
      (b2 = true →
        ∃ scc, Dict.get? spc.regionParams "columnCount" = some scc ∧
          w1 = scc) := by
    by_cases hb2 : "spRegionConfig" ∈ enabledKeys b1 b2 b3 b4 b5
    · rw [if_pos hb2] at hsp
      obtain ⟨rc, hrc, hnm, hcc, hpw, hcfg2, hreg2, htr2⟩ := buildSP_ok_elim hsp
      rw [hcfg1A, h2] at hrc
      injection hrc with hrcA
      subst hrcA
      refine ⟨by rw [hcfg2, hcfg1A, h3], by rw [hcfg2, hcfg1A, h4], ?_⟩
      exact fun _ => ⟨w1, hcc, rfl⟩
    · rw [if_neg hb2] at hsp
      cases hsp
      exact ⟨by rw [hcfg1A, h3], by rw [hcfg1A, h4],
        fun hb2t => absurd ((mem_enabledKeys_sp b1 b2 b3 b4 b5).mpr hb2t) hb2⟩
  obtain ⟨htm2, htp2, hspw⟩ := hspFacts
  obtain ⟨rc5, hrc5, hcfg5, hreg5, htr5⟩ := buildClassifier_ok_elim hcl
  refine ⟨?_, ?_, ?_⟩
  · intro hb3
    rw [if_pos ((mem_enabledKeys_tm b1 b2 b3 b4 b5).mpr hb3)] at htm
    obtain ⟨rc, cc, cpc, hrc, hnm, hcc, hcpc, hpw, hww, hcfg3, hreg3, htr3⟩ :=
      buildTM_ok_elim htm
    rw [htm2] at hrc
    injection hrc with hrcA
    subst hrcA
    have hmono34 : ∃ l, st4.regions = st3.regions ++ l := by
      by_cases hb4m : "tpRegionConfig" ∈ enabledKeys b1 b2 b3 b4 b5
      · rw [if_pos hb4m] at htp
        obtain ⟨rc4, _, _, _, hreg4, _⟩ := buildTP_ok_elim htp
        exact ⟨_, hreg4⟩
      · rw [if_neg hb4m] at htp
        cases htp
        exact ⟨[], by simp⟩
    obtain ⟨l4, hl4⟩ := hmono34
    refine ⟨cc,
      ((regionFromConfig
        { tmc with regionParams := Dict.set tmc.regionParams "inputWidth" cc }).setB
        "computePredictedActiveCellIndices" true).setB "anomalyMode" true,
      hcc, ?_, ?_, ?_⟩
    · rw [hreg5, hl4, hreg3]
      simp
    · simp [regionFromConfig, Region.setB]
    · simp only [regionFromConfig, Region.setB]
      exact Dict.get?_set_self _ _ _
  · intro hb3 hb4
    rw [if_pos ((mem_enabledKeys_tm b1 b2 b3 b4 b5).mpr hb3)] at htm
    obtain ⟨rc, cc, cpc, hrc, hnm, hcc, hcpc, hpw, hww, hcfg3, hreg3, htr3⟩ :=
      buildTM_ok_elim htm
    rw [htm2] at hrc
    injection hrc with hrcA
    subst hrcA
    rw [if_pos ((mem_enabledKeys_tp b1 b2 b3 b4 b5).mpr hb4)] at htp
    obtain ⟨rc4, hrc4, hnm4, hcfg4, hreg4, htr4⟩ := buildTP_ok_elim htp
    have hrc4A : st3.config.tpRegionConfig = some tpc := by
      rw [hcfg3]
      exact htp2
    rw [hrc4A] at hrc4
    injection hrc4 with hrc4B
    subst hrc4B
    refine ⟨cc, cpc,
      regionFromConfig
        { tpc with regionParams := Dict.set tpc.regionParams "inputWidth" w2 },
      hcc, hcpc, ?_, ?_, ?_⟩
    · rw [hreg5, hreg4]
      simp
    · simp [regionFromConfig, Region.setB]
    · simp only [regionFromConfig, Region.setB]
      rw [Dict.get?_set_self, hww]
  · intro hb2 hb3f hb4
    obtain ⟨scc, hscc, hw1⟩ := hspw hb2
    have hb3m : ¬ ("tmRegionConfig" ∈ enabledKeys b1 b2 b3 b4 b5) := by
      rw [mem_enabledKeys_tm]
      rw [hb3f]
      simp
    rw [if_neg hb3m] at htm
    cases htm
    rw [if_pos ((mem_enabledKeys_tp b1 b2 b3 b4 b5).mpr hb4)] at htp
    obtain ⟨rc4, hrc4, hnm4, hcfg4, hreg4, htr4⟩ := buildTP_ok_elim htp
    rw [htp2] at hrc4
    injection hrc4 with hrc4B
    subst hrc4B
    refine ⟨scc,
      regionFromConfig
        { tpc with regionParams := Dict.set tpc.regionParams "inputWidth" w1 },
      hscc, ?_, ?_, ?_⟩
    · rw [hreg5, hreg4]
      simp
    · simp [regionFromConfig, Region.setB]
    · simp only [regionFromConfig, Region.setB]
      rw [Dict.get?_set_self, hw1]

/-- C5 (witness): the special-cased widths at two concrete configurations —
`cfgX` (all stages enabled: TM gets `inputWidth = columnCount` 4, TP gets
`inputWidth = 4 * 8`) and `cfgC5` (TM disabled: TP gets the SP's column
count 4). -/
theorem c5_witness :
    ((true = true →
      ∃ cc r, Dict.get? tmCfgX.regionParams "columnCount" = some cc ∧
        r ∈ stFX.regions ∧ r.name = tmCfgX.regionName ∧
        Dict.get? r.creationParams "inputWidth" = some cc) ∧
     (true = true → true = true →
      ∃ cc cpc r, Dict.get? tmCfgX.regionParams "columnCount" = some cc ∧
        Dict.get? tmCfgX.regionParams "cellsPerColumn" = some cpc ∧
        r ∈ stFX.regions ∧ r.name = tpCfgX.regionName ∧
        Dict.get? r.creationParams "inputWidth" = some (cc * cpc)) ∧
     (true = true → true = false → true = true →
      ∃ scc r, Dict.get? spCfgX.regionParams "columnCount" = some scc ∧
        r ∈ stFX.regions ∧ r.name = tpCfgX.regionName ∧
        Dict.get? r.creationParams "inputWidth" = some scc)) ∧
    ((false = true →
      ∃ cc r, Dict.get? tmCfgX.regionParams "columnCount" = some cc ∧
        r ∈ stF5.regions ∧ r.name = tmCfgX.regionName ∧
        Dict.get? r.creationParams "inputWidth" = some cc) ∧
     (false = true → true = true →
      ∃ cc cpc r, Dict.get? tmCfgX.regionParams "columnCount" = some cc ∧
        Dict.get? tmCfgX.regionParams "cellsPerColumn" = some cpc ∧
        r ∈ stF5.regions ∧ r.name = tpCfgX.regionName ∧
        Dict.get? r.creationParams "inputWidth" = some (cc * cpc)) ∧
     (true = true → false = false → true = true →
      ∃ scc r, Dict.get? spCfgX.regionParams "columnCount" = some scc ∧
        r ∈ stF5.regions ∧ r.name = tpCfgX.regionName ∧
        Dict.get? r.creationParams "inputWidth" = some scc)) :=
  ⟨@c5_input_widths cfgX none (fun _ => false) stFX sensorCfgX spCfgX tmCfgX
      tpCfgX clfCfgX true true true true true (by decide) (by decide)
      (by decide) (by decide) (by decide) (by decide) (by decide) (by decide)
      (by decide) (by decide) (by decide),
   @c5_input_widths cfgC5 none (fun _ => false) stF5 sensorCfgX spCfgX
      { tmCfgX with regionEnabled := some false } tpCfgX clfCfgX
      true true false true true (by decide) (by decide) (by decide)
      (by decide) (by decide) (by decide) (by decide) (by decide) (by decide)
      (by decide) (by decide)⟩

/-- C6 (code evaluated at the failing input): supplying an external encoder
while the sensor config's `"encoders"` key is absent makes
`createAndConfigureNetwork` raise an AttributeError (calling `.get` on None)
instead of succeeding, although its own guard just accepted that combination;
with an empty encoder mapping instead, construction succeeds and the sensor
stage's encoder attribute is exactly the supplied encoder instance. -/
theorem c6_code_bug :
    (createAndConfigureNetwork dsX cfg6absent (some (EncoderObj.external 7 4))
      (fun _ => false)).errOf = some (PyErr.attributeError "get") ∧
    (createAndConfigureNetwork dsX cfg6empty (some (EncoderObj.external 7 4))
      (fun _ => false)).isOk = true ∧
    sensorEncoderOf (createAndConfigureNetwork dsX cfg6empty
      (some (EncoderObj.external 7 4)) (fun _ => false)) =
      some (SensorEncoderAttr.obj (EncoderObj.external 7 4)) := by
  refine ⟨by decide, by decide, by decide⟩

/-- C7 (code evaluated at the failing input): the non-mapping rejection in
`_createEncoder` exists but is unreachable from sensor creation — with a
truthy non-mapping under `"encoders"`, the sensor stage is created, the
non-mapping is assigned as its encoder, and assembly then fails with an
AttributeError on `getWidth`, not with the type-mismatch failure before any
stage is created that the claim describes. -/
theorem c7_code_bug :
    createEncoder (EncodersVal.nonDict true) =
      Except.error (PyErr.typeError "Encoders specified in incorrect format.") ∧
    (createNetwork cfg7 none (fun _ => false)).errOf =
      some (PyErr.attributeError "getWidth") ∧
    Event.created "sensor" ∈ (createNetwork cfg7 none (fun _ => false)).state.trace := by
  refine ⟨by decide, by decide, by decide⟩

/-- C8 (counterexample): in a successful `createAndConfigureNetwork` run on a
fully enabled configuration, a configuration write occurs after the first
stage instance has been created (the SP `inputWidth` injection happens after
the sensor stage exists), contradicting the claim that only the
pre-construction scalar min/max injection mutates the configuration. -/
theorem c8_counterexample :
    (createAndConfigureNetwork dsX cfgX none (fun _ => false)).isOk = true ∧
    writesAfterCreation
      (createAndConfigureNetwork dsX cfgX none (fun _ => false)).state.trace = true := by
  refine ⟨by decide, by decide⟩

/-- C8 (amended): the configuration IS mutated during construction, but only
in two ways: the scalar min/max injection, which happens before any stage is
created (an initial trace segment holding nothing but those two writes), and
the `inputWidth` injections for the SP, TM and TP stages, which occur after
earlier stage instances exist. -/
theorem c8_amended {ds : DataSource} {cfg : NetworkConfig}
    {encoder : Option EncoderObj} {f : String → Bool} {st : BuildSt}
    (hok : createAndConfigureNetwork ds cfg encoder f = Res.ok st ()) :
    ∃ tr1 tr2, st.trace = tr1 ++ tr2 ∧
      (∀ e ∈ tr1, e = Event.configWrite "sensorRegionConfig" "minval" ∨
        e = Event.configWrite "sensorRegionConfig" "maxval") ∧
      okWrites tr2 := by
  unfold createAndConfigureNetwork at hok
  cases hsc : cfg.sensorRegionConfig with
  | none => rw [hsc] at hok; cases hok
  | some sc =>
    rw [hsc] at hok
    simp only at hok
    cases hev : sc.encoders with
    | none =>
      rw [hev] at hok
      cases encoder with
      | none => simp at hok
      | some e0 => simp at hok
    | some ev =>
      rw [hev] at hok
      cases ev with
      | nonDict t =>
        cases encoder <;> cases t <;> simp [EncodersVal.truthy] at hok
      | dict d =>
        by_cases hguard :
            (!(EncodersVal.truthy (EncodersVal.dict d)) && !encoder.isSome) = true
        · simp only [hguard, if_true, ite_true] at hok
          cases hok
        · rw [Bool.not_eq_true] at hguard
          simp only [hguard, Bool.false_eq_true, if_false, ite_false] at hok
          cases hps : Dict.get? d "scalarEncoder" with
          | none =>
            rw [hps] at hok
            simp only at hok
            obtain ⟨rest, htr, hwr⟩ := createNetworkFrom_trace_writes hok
            refine ⟨[], rest, by simpa using htr, by simp, hwr⟩
          | some ps =>
            rw [hps] at hok
            by_cases hpse : ps.isEmpty = true
            · simp only [hpse, Bool.not_true, Bool.false_eq_true, if_false,
                ite_false] at hok
              obtain ⟨rest, htr, hwr⟩ := createNetworkFrom_trace_writes hok
              refine ⟨[], rest, by simpa using htr, by simp, hwr⟩
            · rw [Bool.not_eq_true] at hpse
              simp only [hpse, Bool.not_false, if_true, ite_true] at hok
              rw [setScalarEncoderMinMax_eq hsc hev hps] at hok
              simp only at hok
              obtain ⟨rest, htr, hwr⟩ := createNetworkFrom_trace_writes hok
              refine ⟨[Event.configWrite "sensorRegionConfig" "minval",
                Event.configWrite "sensorRegionConfig" "maxval"], rest,
                by simpa using htr, ?_, hwr⟩
              intro e he
              simp at he
              rcases he with he | he
              · exact Or.inl he
              · exact Or.inr he

/-- The final build state of `createAndConfigureNetwork` on `cfgX`. -/
def stC8 : BuildSt :=
  (createAndConfigureNetwork dsX cfgX none (fun _ => false)).state

/-- C8 (witness): the amended mutation discipline at the concrete
configuration `cfgX` with data source `dsX`. -/
theorem c8_witness :
    ∃ tr1 tr2, stC8.trace = tr1 ++ tr2 ∧
      (∀ e ∈ tr1, e = Event.configWrite "sensorRegionConfig" "minval" ∨
        e = Event.configWrite "sensorRegionConfig" "maxval") ∧
      okWrites tr2 :=
  @c8_amended dsX cfgX none (fun _ => false) stC8 (by decide)

/-- C9 (counterexample): configurations in which the classifier (or sensor)
stage config omits the `regionEnabled` key do not assemble — construction
fails with a KeyError on `regionEnabled` — contradicting the claim that the
flag may be absent for the two mandatory stages. -/
theorem c9_counterexample :
    (createNetwork cfg9clf none (fun _ => false)).errOf =
      some (PyErr.keyError "regionEnabled") ∧
    (createNetwork cfg9sensor none (fun _ => false)).errOf =
      some (PyErr.keyError "regionEnabled") := by
  refine ⟨by decide, by decide⟩

/-- C9 (amended): the `regionEnabled` key is required on every present stage
config, including sensor and classifier: when either of those two mandatory
configs omits it, construction fails with a KeyError on `regionEnabled`
(after the sensor stage was already created); when the key is present its
value is ignored for sensor and classifier, which are always instantiated —
in particular both are created even when their flags are false. -/
theorem c9_amended :
    (∀ (cfg : NetworkConfig) (encoder : Option EncoderObj) (f : String → Bool)
       (st1 : BuildSt) (sn : String) (attr : SensorEncoderAttr) (w0 : Int),
      buildSensor encoder { config := cfg, regions := [], trace := [] } =
        Res.ok st1 (sn, attr) →
      sensorAttrWidth attr = Except.ok w0 →
      ((∃ sc, cfg.sensorRegionConfig = some sc ∧ sc.regionEnabled = none) ∨
       (∃ clc, cfg.classifierRegionConfig = some clc ∧
         clc.regionEnabled = none)) →
      createNetwork cfg encoder f =
        Res.err st1 (PyErr.keyError "regionEnabled")) ∧
    (∀ (cfg : NetworkConfig) (encoder : Option EncoderObj) (f : String → Bool)
       (st : BuildSt) (sc : SensorConfig) (spc tmc tpc clc : RegionConfig)
       (b1 b2 b3 b4 b5 : Bool),
      createNetwork cfg encoder f = Res.ok st () →
      cfg.sensorRegionConfig = some sc → sc.regionEnabled = some b1 →
      cfg.spRegionConfig = some spc → spc.regionEnabled = some b2 →
      cfg.tmRegionConfig = some tmc → tmc.regionEnabled = some b3 →
      cfg.tpRegionConfig = some tpc → tpc.regionEnabled = some b4 →
      cfg.classifierRegionConfig = some clc → clc.regionEnabled = some b5 →
      (∃ r, r ∈ st.regions ∧ r.name = sc.regionName) ∧
      (∃ r, r ∈ st.regions ∧ r.name = clc.regionName)) := by
  constructor
  · intro cfg encoder f st1 sn attr w0 hs hw hflag
    obtain ⟨sc0, ev0, _, _, _, _, hcfg1, _, _⟩ := buildSensor_ok_elim hs
    have hcfg1A : st1.config = cfg := hcfg1
    have hcol : collectEnabled (configKeys st1.config) =
        Except.error (PyErr.keyError "regionEnabled") := by
      rw [hcfg1A]
      rcases hflag with ⟨sc1, hsc1, hen1⟩ | ⟨clc1, hclc1, hen1⟩
      · exact collectEnabled_err_of_none (k := "sensorRegionConfig")
          (by simp [configKeys, hsc1, hen1])
      · exact collectEnabled_err_of_none (k := "classifierRegionConfig")
          (by simp [configKeys, hclc1, hen1])
    unfold createNetwork createNetworkFrom
    rw [hs]
    simp only
    rw [hw]
    simp only
    rw [hcol]
  · intro cfg encoder f st sc spc tmc tpc clc b1 b2 b3 b4 b5 hok h1 e1 h2 e2
      h3 e3 h4 e4 h5 e5
    unfold createNetwork at hok
    obtain ⟨st1, sn, attr, w0, nr, st2, p1, w1, st3, p2, w2, st4, p3,
      hs, hw, hnr, hsp, htm, htp, hcl⟩ := createNetworkFrom_ok_elim hok
    obtain ⟨sc0, ev0, hsc0, hev0, hsn0, hassign0, hcfg1, hreg1, htr1⟩ :=
      buildSensor_ok_elim hs
    have hcfg1A : st1.config = cfg := hcfg1
    have hsc0A : cfg.sensorRegionConfig = some sc0 := hsc0
    rw [h1] at hsc0A
    injection hsc0A with hscEq
    have step2 : (∃ l, st2.regions = st1.regions ++ l) ∧
        st2.config.classifierRegionConfig =
          st1.config.classifierRegionConfig := by
      by_cases hb : "spRegionConfig" ∈ nr
      · rw [if_pos hb] at hsp
        obtain ⟨rc, _, _, _, _, hcfg2, hreg2, _⟩ := buildSP_ok_elim hsp
        exact ⟨⟨_, hreg2⟩, by rw [hcfg2]⟩
      · rw [if_neg hb] at hsp
        cases hsp
        exact ⟨⟨[], by simp⟩, rfl⟩
    have step3 : (∃ l, st3.regions = st2.regions ++ l) ∧
        st3.config.classifierRegionConfig =
          st2.config.classifierRegionConfig := by
      by_cases hb : "tmRegionConfig" ∈ nr
      · rw [if_pos hb] at htm
        obtain ⟨rc, cc, cpc, _, _, _, _, _, _, hcfg3, hreg3, _⟩ :=
          buildTM_ok_elim htm
        exact ⟨⟨_, hreg3⟩, by rw [hcfg3]⟩
      · rw [if_neg hb] at htm
        cases htm
        exact ⟨⟨[], by simp⟩, rfl⟩
    have step4 : (∃ l, st4.regions = st3.regions ++ l) ∧
        st4.config.classifierRegionConfig =
          st3.config.classifierRegionConfig := by
      by_cases hb : "tpRegionConfig" ∈ nr
      · rw [if_pos hb] at htp
        obtain ⟨rc, _, _, hcfg4, hreg4, _⟩ := buildTP_ok_elim htp
        exact ⟨⟨_, hreg4⟩, by rw [hcfg4]⟩
      · rw [if_neg hb] at htp
        cases htp
        exact ⟨⟨[], by simp⟩, rfl⟩
    obtain ⟨⟨l2, hl2⟩, hc2⟩ := step2
    obtain ⟨⟨l3, hl3⟩, hc3⟩ := step3
    obtain ⟨⟨l4, hl4⟩, hc4⟩ := step4
    obtain ⟨rc5, hrc5, hcfg5, hreg5, htr5⟩ := buildClassifier_ok_elim hcl
    have hcls4 : st4.config.classifierRegionConfig = some clc := by
      rw [hc4, hc3, hc2, hcfg1A, h5]
    rw [hcls4] at hrc5
    injection hrc5 with hrc5A
    constructor
    · refine ⟨{ name := sc0.regionName,
                rtype := sc0.regionType,
                creationParams := sc0.regionParams,
                boolParams := [],
                encoderAttr := some attr,
                hasDataSource := true }, ?_, ?_⟩
      · rw [hreg5, hl4, hl3, hl2, hreg1]
        simp
      · rw [hscEq]
    · refine ⟨regionFromConfig clc, ?_, ?_⟩
      · rw [hreg5, hrc5A]
        simp
      · simp [regionFromConfig, Region.setB]

/-- C4: `setRegionLearning` sets the learning-mode parameter to the given
value on every present non-sensor stage (SP, TM and TP when enabled, the
classifier always), never sets or reads that parameter on the sensor stage
(no learning event names the sensor, and the sensor's entry in the returned
network is exactly its entry in the incoming network), and returns the tuple
of stage handles with a None placeholder exactly for each disabled optional
stage. -/
theorem c4_set_region_learning {net net1 : Net} {cfg : NetworkConfig}
    {mode : Bool} {sc : SensorConfig} {spc tmc tpc clc : RegionConfig}
    {evs : List Event} {hs : Region} {hsp htm htp : Option Region}
    {hclf : Region}
    (h1 : cfg.sensorRegionConfig = some sc)
    (h2 : cfg.spRegionConfig = some spc)
    (h3 : cfg.tmRegionConfig = some tmc)
    (h4 : cfg.tpRegionConfig = some tpc)
    (h5 : cfg.classifierRegionConfig = some clc)
    (hdist : List.Pairwise (fun a b => a ≠ b)
      [sc.regionName, spc.regionName, tmc.regionName, tpc.regionName,
       clc.regionName])
    (hok : setRegionLearning net cfg mode =
      Except.ok (net1, evs, (hs, hsp, htm, htp, hclf))) :
    (hsp.isSome = spc.regionEnabled.getD false ∧
     htm.isSome = tmc.regionEnabled.getD false ∧
     htp.isSome = tpc.regionEnabled.getD false) ∧
    evs = (if spc.regionEnabled.getD false then
        [Event.paramSet spc.regionName "learningMode" mode] else []) ++
      (if tmc.regionEnabled.getD false then
        [Event.paramSet tmc.regionName "learningMode" mode] else []) ++
      (if tpc.regionEnabled.getD false then
        [Event.paramSet tpc.regionName "learningMode" mode] else []) ++
      [Event.paramSet clc.regionName "learningMode" mode] ∧
    (∀ pn v, Event.paramSet sc.regionName pn v ∉ evs) ∧
    regionsLookup net1 (some sc.regionName) =
      regionsLookup net (some sc.regionName) ∧
    Dict.get? hclf.boolParams "learningMode" = some mode ∧
    (∀ r, hsp = some r →
      Dict.get? r.boolParams "learningMode" = some mode) ∧
    (∀ r, htm = some r →
      Dict.get? r.boolParams "learningMode" = some mode) ∧
    (∀ r, htp = some r →
      Dict.get? r.boolParams "learningMode" = some mode) ∧
    (spc.regionEnabled.getD false = true →
      ∃ r, regionsLookup net1 (some spc.regionName) = Except.ok r ∧
        Dict.get? r.boolParams "learningMode" = some mode) ∧
    (tmc.regionEnabled.getD false = true →
      ∃ r, regionsLookup net1 (some tmc.regionName) = Except.ok r ∧
        Dict.get? r.boolParams "learningMode" = some mode) ∧
    (tpc.regionEnabled.getD false = true →
      ∃ r, regionsLookup net1 (some tpc.regionName) = Except.ok r ∧
        Dict.get? r.boolParams "learningMode" = some mode) ∧
    (∃ r, regionsLookup net1 (some clc.regionName) = Except.ok r ∧
      Dict.get? r.boolParams "learningMode" = some mode) := by
  simp only [List.pairwise_cons, List.mem_cons, List.mem_singleton,
    List.not_mem_nil] at hdist
  obtain ⟨hds, hdsp, hdtm, hdtp, -⟩ := hdist
  have hne_s_sp : sc.regionName ≠ spc.regionName := hds _ (Or.inl rfl)
  have hne_s_tm : sc.regionName ≠ tmc.regionName := hds _ (Or.inr (Or.inl rfl))
  have hne_s_tp : sc.regionName ≠ tpc.regionName :=
    hds _ (Or.inr (Or.inr (Or.inl rfl)))
  have hne_s_clf : sc.regionName ≠ clc.regionName :=
    hds _ (Or.inr (Or.inr (Or.inr (Or.inl rfl))))
  have hne_sp_tm : spc.regionName ≠ tmc.regionName := hdsp _ (Or.inl rfl)
  have hne_sp_tp : spc.regionName ≠ tpc.regionName := hdsp _ (Or.inr (Or.inl rfl))
  have hne_sp_clf : spc.regionName ≠ clc.regionName :=
    hdsp _ (Or.inr (Or.inr (Or.inl rfl)))
  have hne_tm_tp : tmc.regionName ≠ tpc.regionName := hdtm _ (Or.inl rfl)
  have hne_tm_clf : tmc.regionName ≠ clc.regionName := hdtm _ (Or.inr (Or.inl rfl))
  have hne_tp_clf : tpc.regionName ≠ clc.regionName := hdtp _ (Or.inl rfl)
  unfold setRegionLearning at hok
  rw [h1] at hok
  simp only at hok
  cases hslk : regionsLookup net (some sc.regionName) with
  | error e => rw [hslk] at hok; cases hok
  | ok sr =>
    rw [hslk] at hok
    simp only at hok
    rw [h2] at hok
    cases hst1 : learnStep net (some spc) "spRegionConfig" mode with
    | error e => rw [hst1] at hok; cases hok
    | ok t1 =>
      obtain ⟨n1, e1, hd1⟩ := t1
      rw [hst1] at hok
      simp only at hok
      rw [h3] at hok
      cases hst2 : learnStep n1 (some tmc) "tmRegionConfig" mode with
      | error e => rw [hst2] at hok; cases hok
      | ok t2 =>
        obtain ⟨n2, e2, hd2⟩ := t2
        rw [hst2] at hok
        simp only at hok
        rw [h4] at hok
        cases hst3 : learnStep n2 (some tpc) "tpRegionConfig" mode with
        | error e => rw [hst3] at hok; cases hok
        | ok t3 =>
          obtain ⟨n3, e3, hd3⟩ := t3
          rw [hst3] at hok
          simp only at hok
          rw [h5] at hok
          simp only at hok
          cases hclk : regionsLookup n3 (some clc.regionName) with
          | error e => rw [hclk] at hok; cases hok
          | ok cr =>
            rw [hclk] at hok
            simp only at hok
            injection hok with htup
            injection htup with hnet hrest
            injection hrest with hevs htup2
            injection htup2 with hhs htup3
            injection htup3 with hhsp htup4
            injection htup4 with hhtm htup5
            injection htup5 with hhtp hhclf
            subst hnet
            subst hevs
            subst hhs
            subst hhsp
            subst hhtm
            subst hhtp
            subst hhclf
            have fsp := learnStep_ok_elim hst1
            have ftm := learnStep_ok_elim hst2
            have ftp := learnStep_ok_elim hst3
            have hE1 : e1 = (if spc.regionEnabled.getD false then
                [Event.paramSet spc.regionName "learningMode" mode] else []) := by
              cases hesp : spc.regionEnabled.getD false with
              | true =>
                simp only [if_true, ite_true]
                exact (fsp.1 hesp).2.1
              | false =>
                simp only [Bool.false_eq_true, if_false, ite_false]
                exact (fsp.2 hesp).2.1
            have hE2 : e2 = (if tmc.regionEnabled.getD false then
                [Event.paramSet tmc.regionName "learningMode" mode] else []) := by
              cases hetm : tmc.regionEnabled.getD false with
              | true =>
                simp only [if_true, ite_true]
                exact (ftm.1 hetm).2.1
              | false =>
                simp only [Bool.false_eq_true, if_false, ite_false]
                exact (ftm.2 hetm).2.1
            have hE3 : e3 = (if tpc.regionEnabled.getD false then
                [Event.paramSet tpc.regionName "learningMode" mode] else []) := by
              cases hetp : tpc.regionEnabled.getD false with
              | true =>
                simp only [if_true, ite_true]
                exact (ftp.1 hetp).2.1
              | false =>
                simp only [Bool.false_eq_true, if_false, ite_false]
                exact (ftp.2 hetp).2.1
            have hL1 : regionsLookup n1 (some sc.regionName) =
                regionsLookup net (some sc.regionName) := by
              cases hesp : spc.regionEnabled.getD false with
              | true =>
                rw [(fsp.1 hesp).1]
                exact regionsLookup_setParam_ne _ _ hne_s_sp.symm
              | false => rw [(fsp.2 hesp).1]
            have hL2 : regionsLookup n2 (some sc.regionName) =
                regionsLookup n1 (some sc.regionName) := by
              cases hetm : tmc.regionEnabled.getD false with
              | true =>
                rw [(ftm.1 hetm).1]
                exact regionsLookup_setParam_ne _ _ hne_s_tm.symm
              | false => rw [(ftm.2 hetm).1]
            have hL3 : regionsLookup n3 (some sc.regionName) =
                regionsLookup n2 (some sc.regionName) := by
              cases hetp : tpc.regionEnabled.getD false with
              | true =>
                rw [(ftp.1 hetp).1]
                exact regionsLookup_setParam_ne _ _ hne_s_tp.symm
              | false => rw [(ftp.2 hetp).1]
            refine ⟨⟨?_, ?_, ?_⟩, ?_, ?_, ?_, ?_, ?_, ?_, ?_, ?_, ?_, ?_, ?_⟩
            · cases hesp : spc.regionEnabled.getD false with
              | true =>
                obtain ⟨r1, -, hhd⟩ := (fsp.1 hesp).2.2
                rw [hhd]
                rfl
              | false =>
                rw [(fsp.2 hesp).2.2]
                rfl
            · cases hetm : tmc.regionEnabled.getD false with
              | true =>
                obtain ⟨r2, -, hhd⟩ := (ftm.1 hetm).2.2
                rw [hhd]
                rfl
              | false =>
                rw [(ftm.2 hetm).2.2]
                rfl
            · cases hetp : tpc.regionEnabled.getD false with
              | true =>
                obtain ⟨r3, -, hhd⟩ := (ftp.1 hetp).2.2
                rw [hhd]
                rfl
              | false =>
                rw [(ftp.2 hetp).2.2]
                rfl
            · rw [hE1, hE2, hE3]
            · intro pn v hin
              have hsrc : ∀ e ∈ e1 ++ e2 ++ e3 ++
                  [Event.paramSet clc.regionName "learningMode" mode],
                  ∃ n, (n = spc.regionName ∨ n = tmc.regionName ∨
                    n = tpc.regionName ∨ n = clc.regionName) ∧
                    e = Event.paramSet n "learningMode" mode := by
                intro e he
                rcases List.mem_append.mp he with he | he
                · rcases List.mem_append.mp he with he | he
                  · rcases List.mem_append.mp he with he | he
                    · rw [hE1] at he
                      exact ⟨spc.regionName, Or.inl rfl, mem_ite_singleton he⟩
                    · rw [hE2] at he
                      exact ⟨tmc.regionName, Or.inr (Or.inl rfl),
                        mem_ite_singleton he⟩
                  · rw [hE3] at he
                    exact ⟨tpc.regionName, Or.inr (Or.inr (Or.inl rfl)),
                      mem_ite_singleton he⟩
                · simp only [List.mem_singleton] at he
                  exact ⟨clc.regionName, Or.inr (Or.inr (Or.inr rfl)), he⟩
              obtain ⟨n, hn, he⟩ := hsrc _ hin
              injection he with hname hrest2
              rcases hn with hn | hn | hn | hn
              · exact hne_s_sp (hname.trans hn)
              · exact hne_s_tm (hname.trans hn)
              · exact hne_s_tp (hname.trans hn)
              · exact hne_s_clf (hname.trans hn)
            · rw [regionsLookup_setParam_ne _ _ hne_s_clf.symm, hL3, hL2, hL1]
              exact hslk
            · simp [Region.setB, Dict.get?_set_self]
            · intro r hr
              cases hesp : spc.regionEnabled.getD false with
              | true =>
                obtain ⟨r1, -, hhd⟩ := (fsp.1 hesp).2.2
                rw [hhd] at hr
                injection hr with hr2
                rw [← hr2]
                simp [Region.setB, Dict.get?_set_self]
              | false =>
                rw [(fsp.2 hesp).2.2] at hr
                cases hr
            · intro r hr
              cases hetm : tmc.regionEnabled.getD false with
              | true =>
                obtain ⟨r2, -, hhd⟩ := (ftm.1 hetm).2.2
                rw [hhd] at hr
                injection hr with hr2
                rw [← hr2]
                simp [Region.setB, Dict.get?_set_self]
              | false =>
                rw [(ftm.2 hetm).2.2] at hr
                cases hr
            · intro r hr
              cases hetp : tpc.regionEnabled.getD false with
              | true =>
                obtain ⟨r3, -, hhd⟩ := (ftp.1 hetp).2.2
                rw [hhd] at hr
                injection hr with hr2
                rw [← hr2]
                simp [Region.setB, Dict.get?_set_self]
              | false =>
                rw [(ftp.2 hetp).2.2] at hr
                cases hr
            · intro hesp
              obtain ⟨r1, hlk1, -⟩ := (fsp.1 hesp).2.2
              have hn1 : regionsLookup n1 (some spc.regionName) =
                  Except.ok (r1.setB "learningMode" mode) := by
                rw [(fsp.1 hesp).1]
                exact regionsLookup_setParam_self _ _ hlk1
              have hn2 : regionsLookup n2 (some spc.regionName) =
                  regionsLookup n1 (some spc.regionName) := by
                cases hetm : tmc.regionEnabled.getD false with
                | true =>
                  rw [(ftm.1 hetm).1]
                  exact regionsLookup_setParam_ne _ _ hne_sp_tm.symm
                | false => rw [(ftm.2 hetm).1]
              have hn3 : regionsLookup n3 (some spc.regionName) =
                  regionsLookup n2 (some spc.regionName) := by
                cases hetp : tpc.regionEnabled.getD false with
                | true =>
                  rw [(ftp.1 hetp).1]
                  exact regionsLookup_setParam_ne _ _ hne_sp_tp.symm
                | false => rw [(ftp.2 hetp).1]
              refine ⟨r1.setB "learningMode" mode, ?_, ?_⟩
              · rw [regionsLookup_setParam_ne _ _ hne_sp_clf.symm, hn3, hn2, hn1]
              · simp [Region.setB, Dict.get?_set_self]
            · intro hetm
              obtain ⟨r2, hlk2, -⟩ := (ftm.1 hetm).2.2
              have hn2 : regionsLookup n2 (some tmc.regionName) =
                  Except.ok (r2.setB "learningMode" mode) := by
                rw [(ftm.1 hetm).1]
                exact regionsLookup_setParam_self _ _ hlk2
              have hn3 : regionsLookup n3 (some tmc.regionName) =
                  regionsLookup n2 (some tmc.regionName) := by
                cases hetp : tpc.regionEnabled.getD false with
                | true =>
                  rw [(ftp.1 hetp).1]
                  exact regionsLookup_setParam_ne _ _ hne_tm_tp.symm
                | false => rw [(ftp.2 hetp).1]
              refine ⟨r2.setB "learningMode" mode, ?_, ?_⟩
              · rw [regionsLookup_setParam_ne _ _ hne_tm_clf.symm, hn3, hn2]
              · simp [Region.setB, Dict.get?_set_self]
            · intro hetp
              obtain ⟨r3, hlk3, -⟩ := (ftp.1 hetp).2.2
              have hn3 : regionsLookup n3 (some tpc.regionName) =
                  Except.ok (r3.setB "learningMode" mode) := by
                rw [(ftp.1 hetp).1]
                exact regionsLookup_setParam_self _ _ hlk3
              refine ⟨r3.setB "learningMode" mode, ?_, ?_⟩
              · rw [regionsLookup_setParam_ne _ _ hne_tp_clf.symm, hn3]
              · simp [Region.setB, Dict.get?_set_self]
            · refine ⟨cr.setB "learningMode" mode, ?_, ?_⟩
              · exact regionsLookup_setParam_self _ _ hclk
              · simp [Region.setB, Dict.get?_set_self]

/-- C4 (witness): the learning toggle applied with mode `true` to the network
assembled from the fully enabled `cfgX`. -/
theorem c4_witness :
    ((lrOut.2.2.2.1.isSome = spCfgX.regionEnabled.getD false ∧
      lrOut.2.2.2.2.1.isSome = tmCfgX.regionEnabled.getD false ∧
      lrOut.2.2.2.2.2.1.isSome = tpCfgX.regionEnabled.getD false) ∧
     lrOut.2.1 = (if spCfgX.regionEnabled.getD false then
         [Event.paramSet spCfgX.regionName "learningMode" true] else []) ++
       (if tmCfgX.regionEnabled.getD false then
         [Event.paramSet tmCfgX.regionName "learningMode" true] else []) ++
       (if tpCfgX.regionEnabled.getD false then
         [Event.paramSet tpCfgX.regionName "learningMode" true] else []) ++
       [Event.paramSet clfCfgX.regionName "learningMode" true] ∧
     (∀ pn v, Event.paramSet sensorCfgX.regionName pn v ∉ lrOut.2.1) ∧
     regionsLookup lrOut.1 (some sensorCfgX.regionName) =
       regionsLookup stFX.regions (some sensorCfgX.regionName) ∧
     Dict.get? lrOut.2.2.2.2.2.2.boolParams "learningMode" = some true ∧
     (∀ r, lrOut.2.2.2.1 = some r →
       Dict.get? r.boolParams "learningMode" = some true) ∧
     (∀ r, lrOut.2.2.2.2.1 = some r →
       Dict.get? r.boolParams "learningMode" = some true) ∧
     (∀ r, lrOut.2.2.2.2.2.1 = some r →
       Dict.get? r.boolParams "learningMode" = some true) ∧
     (spCfgX.regionEnabled.getD false = true →
       ∃ r, regionsLookup lrOut.1 (some spCfgX.regionName) = Except.ok r ∧
         Dict.get? r.boolParams "learningMode" = some true) ∧
     (tmCfgX.regionEnabled.getD false = true →
       ∃ r, regionsLookup lrOut.1 (some tmCfgX.regionName) = Except.ok r ∧
         Dict.get? r.boolParams "learningMode" = some true) ∧
     (tpCfgX.regionEnabled.getD false = true →
       ∃ r, regionsLookup lrOut.1 (some tpCfgX.regionName) = Except.ok r ∧
         Dict.get? r.boolParams "learningMode" = some true) ∧
     (∃ r, regionsLookup lrOut.1 (some clfCfgX.regionName) = Except.ok r ∧
       Dict.get? r.boolParams "learningMode" = some true)) :=
  @c4_set_region_learning stFX.regions lrOut.1 cfgX true sensorCfgX spCfgX
    tmCfgX tpCfgX clfCfgX lrOut.2.1 lrOut.2.2.1 lrOut.2.2.2.1
    lrOut.2.2.2.2.1 lrOut.2.2.2.2.2.1 lrOut.2.2.2.2.2.2
    (by decide) (by decide) (by decide) (by decide) (by decide) (by decide)
    (by decide)

/-- C10: `setRegionLearning` unconditionally indexes the SP, TM and TP config
keys, so it requires all three to be present and fails with a KeyError naming
the missing key, even when the corresponding stage is disabled (its step
succeeding with a None placeholder) or absent from the network. -/
theorem c10_requires_stage_keys {net : Net} {cfg : NetworkConfig} {mode : Bool}
    {sc : SensorConfig} {sr : Region}
    (h1 : cfg.sensorRegionConfig = some sc)
    (hlk : regionsLookup net (some sc.regionName) = Except.ok sr) :
    (cfg.spRegionConfig = none →
      setRegionLearning net cfg mode =
        Except.error (PyErr.keyError "spRegionConfig")) ∧
    (∀ net1 evs1 hsp,
      learnStep net cfg.spRegionConfig "spRegionConfig" mode =
        Except.ok (net1, evs1, hsp) →
      cfg.tmRegionConfig = none →
      setRegionLearning net cfg mode =
        Except.error (PyErr.keyError "tmRegionConfig")) ∧
    (∀ net1 evs1 hsp net2 evs2 htm,
      learnStep net cfg.spRegionConfig "spRegionConfig" mode =
        Except.ok (net1, evs1, hsp) →
      learnStep net1 cfg.tmRegionConfig "tmRegionConfig" mode =
        Except.ok (net2, evs2, htm) →
      cfg.tpRegionConfig = none →
      setRegionLearning net cfg mode =
        Except.error (PyErr.keyError "tpRegionConfig")) := by
  refine ⟨?_, ?_, ?_⟩
  · intro hnone
    unfold setRegionLearning
    rw [h1]
    simp only
    rw [hlk]
    simp only
    rw [hnone]
    simp [learnStep]
  · intro net1 evs1 hsp hstep hnone
    unfold setRegionLearning
    rw [h1]
    simp only
    rw [hlk]
    simp only
    rw [hstep]
    simp only
    rw [hnone]
    simp [learnStep]
  · intro net1 evs1 hsp net2 evs2 htm hstep1 hstep2 hnone
    unfold setRegionLearning
    rw [h1]
    simp only
    rw [hlk]
    simp only
    rw [hstep1]
    simp only
    rw [hstep2]
    simp only
    rw [hnone]
    simp [learnStep]

/-- C10 (witness): the three missing-key failures at concrete inputs; in the
TM and TP cases the earlier optional stages are present but disabled, showing
the keys are required even for stages absent from the network. -/
theorem c10_witness :
    setRegionLearning netW cfgM1 true =
      Except.error (PyErr.keyError "spRegionConfig") ∧
    setRegionLearning netW cfgM2 true =
      Except.error (PyErr.keyError "tmRegionConfig") ∧
    setRegionLearning netW cfgM3 true =
      Except.error (PyErr.keyError "tpRegionConfig") :=
  ⟨(@c10_requires_stage_keys netW cfgM1 true sensorCfgX sensorRegionW
      (by decide) (by decide)).1 (by decide),
   (@c10_requires_stage_keys netW cfgM2 true sensorCfgX sensorRegionW
      (by decide) (by decide)).2.1 netW [] none (by decide) (by decide),
   (@c10_requires_stage_keys netW cfgM3 true sensorCfgX sensorRegionW
      (by decide) (by decide)).2.2 netW [] none netW [] none (by decide)
      (by decide) (by decide)⟩

/-- C9 (witness): the amended behavior at concrete configurations — a
classifier config without the flag makes construction fail with the KeyError,
and a classifier config with the flag false is still instantiated. -/
theorem c9_witness :
    createNetwork cfg9clf none (fun _ => false) =
      Res.err st1W9 (PyErr.keyError "regionEnabled") ∧
    ((∃ r, r ∈ stF9.regions ∧ r.name = "sensor") ∧
     (∃ r, r ∈ stF9.regions ∧ r.name = "classifier")) :=
  ⟨c9_amended.1 cfg9clf none (fun _ => false) st1W9 "sensor"
    (SensorEncoderAttr.obj (EncoderObj.multi encodersDictX)) 4 (by decide)
    (by decide)
    (Or.inr ⟨{ clfCfgX with regionEnabled := none }, by decide, by decide⟩),
   c9_amended.2 cfgClfOff none (fun _ => false) stF9 sensorCfgX spCfgX tmCfgX
    tpCfgX { clfCfgX with regionEnabled := some false } true true true true
    false (by decide) (by decide) (by decide) (by decide) (by decide)
    (by decide) (by decide) (by decide) (by decide) (by decide) (by decide)⟩

end NetFactory
